import Mathlib

/-!
Verification of the BVH acceleration layer of `source/blender/blenkernel/intern/bvhutils.cc`.

The geometric scalar type of the source is `float`; here it is embedded as an exact
fraction type `Frac` (a kernel-computable rational), so every comparison and branch of
the source's control flow is reproduced exactly.  The generic BVH tree service
(`BLI_bvhtree_*`) and the out-of-scope math primitives with irrational results
(Euclidean length, vector normalization, unit triangle normal, the two ray-triangle
intersection tests) are opaque collaborators of the file under verification; they are
modelled as an explicit tree value respectively as function parameters (`GeomPrims`).
All rational-valued math primitives (closest point on segment/triangle, line-line
closest approach, line point factor) are modelled concretely from their documented
contracts.
-/

set_option maxRecDepth 100000

/-- Fuelled Euclidean algorithm; the fuel bounds the number of steps so that the
kernel can reduce it structurally. -/
def gcdFuel : ℕ → ℕ → ℕ → ℕ
  | 0, _, b => b
  | f + 1, a, b => if a = 0 then b else gcdFuel f (b % a) a

/-- Greatest common divisor via `gcdFuel`; `a + 1` steps always suffice. -/
def natGcd (a b : ℕ) : ℕ := gcdFuel (a + 1) a b

/-- Exact fraction kept in lowest terms with positive denominator (all constructors
below normalize), standing in for the source's `float` scalar. -/
structure Frac where
  num : ℤ
  den : ℕ
deriving DecidableEq, Repr

/-- Normalizing constructor: sign goes to the numerator, the fraction is reduced,
and a zero denominator yields `0` (the convention used for degenerate divisions). -/
def Frac.mk' (n : ℤ) (d : ℤ) : Frac :=
  if d = 0 then ⟨0, 1⟩
  else
    let s : ℤ := if d < 0 then -1 else 1
    let n' := n * s
    let dn : ℕ := (d * s).toNat
    let g := natGcd n'.natAbs dn
    if g = 0 then ⟨0, 1⟩ else ⟨n' / g, dn / g⟩

def Frac.add (a b : Frac) : Frac := Frac.mk' (a.num * b.den + b.num * a.den) (a.den * b.den)

def Frac.sub (a b : Frac) : Frac := Frac.mk' (a.num * b.den - b.num * a.den) (a.den * b.den)

def Frac.mul (a b : Frac) : Frac := Frac.mk' (a.num * b.num) (a.den * b.den)

def Frac.div (a b : Frac) : Frac := Frac.mk' (a.num * b.den) ((a.den : ℤ) * b.num)

def Frac.neg (a : Frac) : Frac := ⟨-a.num, a.den⟩

/-- Order on fractions by cross multiplication (denominators are positive). -/
def Frac.lt (a b : Frac) : Prop := a.num * b.den < b.num * a.den

def Frac.le (a b : Frac) : Prop := a.num * b.den ≤ b.num * a.den

instance : Add Frac := ⟨Frac.add⟩

instance : Sub Frac := ⟨Frac.sub⟩

instance : Mul Frac := ⟨Frac.mul⟩

instance : Div Frac := ⟨Frac.div⟩

instance : Neg Frac := ⟨Frac.neg⟩

instance : LT Frac := ⟨Frac.lt⟩

instance : LE Frac := ⟨Frac.le⟩

instance (a b : Frac) : Decidable (a < b) :=
  inferInstanceAs (Decidable (a.num * (b.den : ℤ) < b.num * (a.den : ℤ)))

instance (a b : Frac) : Decidable (a ≤ b) :=
  inferInstanceAs (Decidable (a.num * (b.den : ℤ) ≤ b.num * (a.den : ℤ)))

instance (n : ℕ) : OfNat Frac n := ⟨⟨n, 1⟩⟩

/-- Embed an integer as a fraction. -/
def qi (n : ℤ) : Frac := ⟨n, 1⟩

/-- Sentinel "no hit" distance used by the source (`FLT_MAX`): a very large finite
value, comparison-compatible with real distances. -/
def FLT_MAX : Frac := ⟨2 ^ 128, 1⟩

/-- Exact 3D vector over `Frac`, embedding the source's `float[3]` / `float3`. -/
structure Vec3 where
  x : Frac
  y : Frac
  z : Frac
deriving DecidableEq, Repr

def vzero : Vec3 := ⟨0, 0, 0⟩

def vadd (a b : Vec3) : Vec3 := ⟨a.x + b.x, a.y + b.y, a.z + b.z⟩

def vsub (a b : Vec3) : Vec3 := ⟨a.x - b.x, a.y - b.y, a.z - b.z⟩

def vscale (a : Vec3) (t : Frac) : Vec3 := ⟨a.x * t, a.y * t, a.z * t⟩

def vdot (a b : Vec3) : Frac := a.x * b.x + a.y * b.y + a.z * b.z

def vcross (a b : Vec3) : Vec3 :=
  ⟨a.y * b.z - a.z * b.y, a.z * b.x - a.x * b.z, a.x * b.y - a.y * b.x⟩

instance : Add Vec3 := ⟨vadd⟩

instance : Sub Vec3 := ⟨vsub⟩

/-- Embedding of `madd_v3_v3v3fl(r, a, b, t)`: `r = a + b * t`. -/
def madd_v3_v3v3fl (a b : Vec3) (t : Frac) : Vec3 := a + vscale b t

/-- Embedding of `len_squared_v3v3`: squared Euclidean distance (exact). -/
def len_squared_v3v3 (a b : Vec3) : Frac := vdot (a - b) (a - b)

/-- Embedding of `dot_v3v3v3(p1, p2, p3)`: dot product of the two difference vectors
`p2 - p1` and `p3 - p1`. -/
def dot_v3v3v3 (p1 p2 p3 : Vec3) : Frac := vdot (p2 - p1) (p3 - p1)

/-- Embedding of `square_f`. -/
def square_f (a : Frac) : Frac := a * a

/-- Embedding of `equals_v3v3` (exact componentwise equality). -/
def equals_v3v3 (a b : Vec3) : Bool := decide (a = b)

/-- Modelled from the spec: point-to-segment closest point (`closest_to_line_segment_v3`,
an out-of-scope math primitive).  The segment parameter is clamped to `[0, 1]`; a
zero-length segment degenerates to its first endpoint (the division convention
returns factor 0). -/
def closest_to_line_segment_v3 (p l1 l2 : Vec3) : Vec3 :=
  let u := l2 - l1
  let lam := vdot (p - l1) u / vdot u u
  if lam ≤ 0 then l1
  else if 1 ≤ lam then l2
  else l1 + vscale u lam

/-- Modelled from the spec: factor of the projection of `p` onto the line through
`l1`, `l2` (`line_point_factor_v3`, an out-of-scope math primitive); 0 on a
degenerate line. -/
def line_point_factor_v3 (p l1 l2 : Vec3) : Frac :=
  vdot (p - l1) (l2 - l1) / vdot (l2 - l1) (l2 - l1)

/-- Scalar triple product, used by the line-line closest approach. -/
def det3 (a b c : Vec3) : Frac := vdot a (vcross b c)

/-- Modelled from the spec: 3D line-line closest approach
(`isect_line_line_v3`, an out-of-scope math primitive).  Returns `none` for
parallel or degenerate lines, otherwise the pair of the closest point on the
first line and the closest point on the second line (equal when the lines meet). -/
def isect_line_line_v3 (v1 v2 v3 v4 : Vec3) : Option (Vec3 × Vec3) :=
  let d1 := v2 - v1
  let d2 := v4 - v3
  let n := vcross d1 d2
  if n = vzero then none
  else
    let c := v3 - v1
    let nlen := vdot n n
    some (v1 + vscale d1 (det3 c d2 n / nlen), v3 + vscale d2 (det3 c d1 n / nlen))

/-- Modelled from the spec: point-to-triangle closest point
(`closest_on_tri_to_point_v3`, an out-of-scope math primitive); the standard
Voronoi-region case analysis, exact over `Frac`. -/
def closest_on_tri_to_point_v3 (p a b c : Vec3) : Vec3 :=
  let ab := b - a
  let ac := c - a
  let ap := p - a
  let d1 := vdot ab ap
  let d2 := vdot ac ap
  if d1 ≤ 0 ∧ d2 ≤ 0 then a
  else
    let bp := p - b
    let d3 := vdot ab bp
    let d4 := vdot ac bp
    if 0 ≤ d3 ∧ d4 ≤ d3 then b
    else
      let vc := d1 * d4 - d3 * d2
      if vc ≤ 0 ∧ 0 ≤ d1 ∧ d3 ≤ 0 then a + vscale ab (d1 / (d1 - d3))
      else
        let cp := p - c
        let d5 := vdot ab cp
        let d6 := vdot ac cp
        if 0 ≤ d6 ∧ d5 ≤ d6 then c
        else
          let vb := d5 * d2 - d1 * d6
          if vb ≤ 0 ∧ 0 ≤ d2 ∧ d6 ≤ 0 then a + vscale ac (d2 / (d2 - d6))
          else
            let va := d3 * d6 - d5 * d4
            if va ≤ 0 ∧ 0 ≤ d4 - d3 ∧ 0 ≤ d5 - d6 then
              b + vscale (c - b) ((d4 - d3) / ((d4 - d3) + (d5 - d6)))
            else
              let denom := va + vb + vc
              a + vscale ab (vb / denom) + vscale ac (vc / denom)

/-- Modelled from the spec: the out-of-scope math primitives whose exact values are
irrational (Euclidean length, normalization, unit triangle normal) or whose
algorithm is configurable (the watertight / epsilon ray-triangle tests and the
swept-sphere-triangle test); the callbacks are verified for every choice of these
pure functions. -/
structure GeomPrims where
  len_v3v3 : Vec3 → Vec3 → Frac
  normalize_v3 : Vec3 → Vec3
  normal_tri_v3 : Vec3 → Vec3 → Vec3 → Vec3
  isect_ray_tri : Vec3 → Vec3 → Vec3 → Vec3 → Vec3 → Option Frac
  isect_sweeping_sphere_tri : Vec3 → Vec3 → Frac → Vec3 → Vec3 → Vec3 → Option Frac

/-- Embedding of `BVHTreeNearest` (running best result of a nearest query). -/
structure BVHTreeNearest where
  index : ℤ
  co : Vec3
  no : Vec3
  dist_sq : Frac
deriving DecidableEq, Repr

/-- Embedding of `BVHTreeRay`. -/
structure BVHTreeRay where
  origin : Vec3
  direction : Vec3
  radius : Frac
deriving DecidableEq, Repr

/-- Embedding of `BVHTreeRayHit` (running best result of a ray cast). -/
structure BVHTreeRayHit where
  index : ℤ
  co : Vec3
  no : Vec3
  dist : Frac
deriving DecidableEq, Repr

/-- Embedding of the legacy `MFace` tessellated face; `v4 = 0` means the face is a
triangle (the historical BLENDER convention used by the `face->v4` truth tests). -/
structure MFace where
  v1 : ℕ
  v2 : ℕ
  v3 : ℕ
  v4 : ℕ
deriving DecidableEq, Repr

/-- One primitive stored in the opaque BVH tree: the element index it was tagged
with and the bounding points passed to `BLI_bvhtree_insert`. -/
structure BVHInsert where
  index : ℕ
  points : List Vec3
deriving DecidableEq, Repr

/-- Model of the opaque `BVHTree` service: an identity (allocation counter value,
so tree identity is observable), the inserted primitives, and the balanced flag. -/
structure BVHTree where
  id : ℕ
  inserts : List BVHInsert
  balanced : Bool
deriving DecidableEq, Repr

/-- Model of `BLI_bvhtree_new`: fresh identity, no primitives, unbalanced. -/
def BLI_bvhtree_new (nextId : ℕ) : BVHTree := ⟨nextId, [], false⟩

/-- Model of `BLI_bvhtree_insert`. -/
def BLI_bvhtree_insert (t : BVHTree) (index : ℕ) (points : List Vec3) : BVHTree :=
  { t with inserts := t.inserts ++ [⟨index, points⟩] }

/-- Model of `BLI_bvhtree_balance`. -/
def BLI_bvhtree_balance (t : BVHTree) : BVHTree := { t with balanced := true }

/-- Embedding of the static `bvhtree_balance` helper: balancing a null tree is a
no-op. -/
def bvhtree_balance (t : Option BVHTree) : Option BVHTree :=
  match t with
  | none => none
  | some tree => some (BLI_bvhtree_balance tree)

/-- Function-pointer identity for the nearest-point callbacks selected by
`bvhtree_from_mesh_setup_data`. -/
inductive NearestCallbackTag where
  | faces_nearest
  | corner_tris_nearest
  | edges_nearest
deriving DecidableEq, Repr

/-- Function-pointer identity for the ray-cast callbacks selected by
`bvhtree_from_mesh_setup_data`. -/
inductive RaycastCallbackTag where
  | verts_spherecast
  | edges_spherecast
  | faces_spherecast
  | corner_tris_spherecast
deriving DecidableEq, Repr

/-- Embedding of the `BVHCacheType` geometry-kind enum (the `BVHTREE_MAX_ITEM`
sentinel is not a kind). -/
inductive BVHCacheType where
  | FROM_VERTS
  | FROM_LOOSEVERTS
  | FROM_LOOSEVERTS_NO_HIDDEN
  | FROM_EDGES
  | FROM_LOOSEEDGES
  | FROM_LOOSEEDGES_NO_HIDDEN
  | FROM_FACES
  | FROM_CORNER_TRIS
  | FROM_CORNER_TRIS_NO_HIDDEN
deriving DecidableEq, Repr

/-- Embedding of the `BVHTreeFromMesh` query bundle. -/
structure BVHTreeFromMesh where
  tree : Option BVHTree
  vert_positions : List Vec3
  edges : List (ℕ × ℕ)
  face : List MFace
  corner_verts : List ℕ
  corner_tris : List (ℕ × ℕ × ℕ)
  nearest_callback : Option NearestCallbackTag
  raycast_callback : Option RaycastCallbackTag
  owned_tree : Option BVHTree
deriving DecidableEq, Repr

def mface0 : MFace := ⟨0, 0, 0, 0⟩

/-- Position lookup `data->vert_positions[v]`. -/
def posOf (data : BVHTreeFromMesh) (v : ℕ) : Vec3 := data.vert_positions.getD v vzero

/-- Face lookup `data->face[index]`. -/
def faceOf (data : BVHTreeFromMesh) (index : ℕ) : MFace := data.face.getD index mface0

/-- Edge lookup `data->edges[index]`. -/
def edgeOf (data : BVHTreeFromMesh) (index : ℕ) : ℕ × ℕ := data.edges.getD index (0, 0)

/-- Triangle lookup `data->corner_tris[index]`. -/
def triOf (data : BVHTreeFromMesh) (index : ℕ) : ℕ × ℕ × ℕ :=
  data.corner_tris.getD index (0, 0, 0)

def triV0 (data : BVHTreeFromMesh) (index : ℕ) : Vec3 :=
  posOf data (data.corner_verts.getD (triOf data index).1 0)

def triV1 (data : BVHTreeFromMesh) (index : ℕ) : Vec3 :=
  posOf data (data.corner_verts.getD (triOf data index).2.1 0)

def triV2 (data : BVHTreeFromMesh) (index : ℕ) : Vec3 :=
  posOf data (data.corner_verts.getD (triOf data index).2.2 0)

/-- Embedding of `bvhtree_ray_tri_intersection`: distance on hit, `FLT_MAX`
sentinel otherwise (the unused `m_dist` parameter of the source is dropped). -/
def bvhtree_ray_tri_intersection (prims : GeomPrims) (ray : BVHTreeRay)
    (v0 v1 v2 : Vec3) : Frac :=
  match prims.isect_ray_tri ray.origin ray.direction v0 v1 v2 with
  | some dist => dist
  | none => FLT_MAX

/-- Embedding of `bvhtree_sphereray_tri_intersection`. -/
def bvhtree_sphereray_tri_intersection (prims : GeomPrims) (ray : BVHTreeRay)
    (radius m_dist : Frac) (v0 v1 v2 : Vec3) : Frac :=
  let p1 := madd_v3_v3v3fl ray.origin ray.direction m_dist
  match prims.isect_sweeping_sphere_tri ray.origin p1 radius v0 v1 v2 with
  | some idist => idist * m_dist
  | none => FLT_MAX

/-- One iteration of the do-while body of `mesh_faces_nearest_point`: test one
sub-triangle and update the running best on strict improvement. -/
def faces_nearest_point_iter (prims : GeomPrims) (index : ℕ) (co t0 t1 t2 : Vec3)
    (nearest : BVHTreeNearest) : BVHTreeNearest :=
  let nearest_tmp := closest_on_tri_to_point_v3 co t0 t1 t2
  let dist_sq := len_squared_v3v3 co nearest_tmp
  if dist_sq < nearest.dist_sq then
    { index := (index : ℤ), dist_sq := dist_sq, co := nearest_tmp,
      no := prims.normal_tri_v3 t0 t1 t2 }
  else nearest

/-- Embedding of `mesh_faces_nearest_point`.  The do-while loop runs once for a
triangle; for a quad the rotation `t1 = t2; t2 = t3; t3 = nullptr` makes it run a
second time on `(t0, old t2, old t3)` and then stop, which the unrolling below
reproduces exactly. -/
def mesh_faces_nearest_point (prims : GeomPrims) (data : BVHTreeFromMesh) (index : ℕ)
    (co : Vec3) (nearest : BVHTreeNearest) : BVHTreeNearest :=
  let face := faceOf data index
  let t0 := posOf data face.v1
  let t1 := posOf data face.v2
  let t2 := posOf data face.v3
  let t3 : Option Vec3 := if face.v4 ≠ 0 then some (posOf data face.v4) else none
  let nearest1 := faces_nearest_point_iter prims index co t0 t1 t2 nearest
  match t3 with
  | none => nearest1
  | some p => faces_nearest_point_iter prims index co t0 t2 p nearest1

/-- Embedding of `mesh_corner_tris_nearest_point`. -/
def mesh_corner_tris_nearest_point (prims : GeomPrims) (data : BVHTreeFromMesh)
    (index : ℕ) (co : Vec3) (nearest : BVHTreeNearest) : BVHTreeNearest :=
  let v0 := triV0 data index
  let v1 := triV1 data index
  let v2 := triV2 data index
  let nearest_tmp := closest_on_tri_to_point_v3 co v0 v1 v2
  let dist_sq := len_squared_v3v3 co nearest_tmp
  if dist_sq < nearest.dist_sq then
    { index := (index : ℤ), dist_sq := dist_sq, co := nearest_tmp,
      no := prims.normal_tri_v3 v0 v1 v2 }
  else nearest

/-- One iteration of the do-while body of `mesh_faces_spherecast`. -/
def faces_spherecast_iter (prims : GeomPrims) (index : ℕ) (ray : BVHTreeRay)
    (t0 t1 t2 : Vec3) (hit : BVHTreeRayHit) : BVHTreeRayHit :=
  let dist :=
    if ray.radius = 0 then bvhtree_ray_tri_intersection prims ray t0 t1 t2
    else bvhtree_sphereray_tri_intersection prims ray ray.radius hit.dist t0 t1 t2
  if 0 ≤ dist ∧ dist < hit.dist then
    { index := (index : ℤ), dist := dist,
      co := madd_v3_v3v3fl ray.origin ray.direction dist,
      no := prims.normal_tri_v3 t0 t1 t2 }
  else hit

/-- Embedding of `mesh_faces_spherecast` (same loop unrolling as
`mesh_faces_nearest_point`). -/
def mesh_faces_spherecast (prims : GeomPrims) (data : BVHTreeFromMesh) (index : ℕ)
    (ray : BVHTreeRay) (hit : BVHTreeRayHit) : BVHTreeRayHit :=
  let face := faceOf data index
  let t0 := posOf data face.v1
  let t1 := posOf data face.v2
  let t2 := posOf data face.v3
  let t3 : Option Vec3 := if face.v4 ≠ 0 then some (posOf data face.v4) else none
  let hit1 := faces_spherecast_iter prims index ray t0 t1 t2 hit
  match t3 with
  | none => hit1
  | some p => faces_spherecast_iter prims index ray t0 t2 p hit1

/-- Embedding of `mesh_corner_tris_spherecast`. -/
def mesh_corner_tris_spherecast (prims : GeomPrims) (data : BVHTreeFromMesh)
    (index : ℕ) (ray : BVHTreeRay) (hit : BVHTreeRayHit) : BVHTreeRayHit :=
  let v0 := triV0 data index
  let v1 := triV1 data index
  let v2 := triV2 data index
  let dist :=
    if ray.radius = 0 then bvhtree_ray_tri_intersection prims ray v0 v1 v2
    else bvhtree_sphereray_tri_intersection prims ray ray.radius hit.dist v0 v1 v2
  if 0 ≤ dist ∧ dist < hit.dist then
    { index := (index : ℤ), dist := dist,
      co := madd_v3_v3v3fl ray.origin ray.direction dist,
      no := prims.normal_tri_v3 v0 v1 v2 }
  else hit

/-- Embedding of `mesh_edges_nearest_point`. -/
def mesh_edges_nearest_point (prims : GeomPrims) (data : BVHTreeFromMesh) (index : ℕ)
    (co : Vec3) (nearest : BVHTreeNearest) : BVHTreeNearest :=
  let t0 := posOf data (edgeOf data index).1
  let t1 := posOf data (edgeOf data index).2
  let nearest_tmp := closest_to_line_segment_v3 co t0 t1
  let dist_sq := len_squared_v3v3 nearest_tmp co
  if dist_sq < nearest.dist_sq then
    { index := (index : ℤ), dist_sq := dist_sq, co := nearest_tmp,
      no := prims.normalize_v3 (t0 - t1) }
  else nearest

/-- Embedding of `mesh_verts_spherecast_do` (the point-sphere-cast helper). -/
def mesh_verts_spherecast_do (prims : GeomPrims) (index : ℕ) (v : Vec3)
    (ray : BVHTreeRay) (hit : BVHTreeRayHit) : BVHTreeRayHit :=
  let r1 := ray.origin
  let r2 := r1 + ray.direction
  let i1 := closest_to_line_segment_v3 v r1 r2
  if 0 ≤ dot_v3v3v3 r1 i1 r2 ∧ prims.len_v3v3 r1 i1 < hit.dist then
    { hit with index := (index : ℤ), dist := prims.len_v3v3 r1 i1, co := i1 }
  else hit

/-- Embedding of `mesh_verts_spherecast`. -/
def mesh_verts_spherecast (prims : GeomPrims) (data : BVHTreeFromMesh) (index : ℕ)
    (ray : BVHTreeRay) (hit : BVHTreeRayHit) : BVHTreeRayHit :=
  mesh_verts_spherecast_do prims index (posOf data index) ray hit

/-- Embedding of `mesh_edges_spherecast`. -/
def mesh_edges_spherecast (prims : GeomPrims) (data : BVHTreeFromMesh) (index : ℕ)
    (ray : BVHTreeRay) (hit : BVHTreeRayHit) : BVHTreeRayHit :=
  let v1 := posOf data (edgeOf data index).1
  let v2 := posOf data (edgeOf data index).2
  let radius_sq := square_f ray.radius
  if equals_v3v3 v1 v2 then mesh_verts_spherecast_do prims index v1 ray hit
  else
    let r1 := ray.origin
    let r2 := r1 + ray.direction
    match isect_line_line_v3 v1 v2 r1 r2 with
    | none => hit
    | some (i1, i2) =>
      if 0 ≤ dot_v3v3v3 r1 i2 r2 ∧ prims.len_v3v3 r1 i2 < hit.dist then
        let e_fac := line_point_factor_v3 i1 v1 v2
        let i1c := if e_fac < 0 then v1 else if 1 < e_fac then v2 else i1
        if len_squared_v3v3 i1c i2 ≤ radius_sq then
          { hit with index := (index : ℤ), dist := prims.len_v3v3 r1 i2, co := i2 }
        else hit
      else hit

/-- Embedding of `bvhtree_from_mesh_setup_data`: fills the bundle references and
selects both callbacks from the geometry-kind enum. -/
def bvhtree_from_mesh_setup_data (tree : Option BVHTree) (bvh_cache_type : BVHCacheType)
    (positions : List Vec3) (edges : List (ℕ × ℕ)) (corner_verts : List ℕ)
    (corner_tris : List (ℕ × ℕ × ℕ)) (face : List MFace) : BVHTreeFromMesh :=
  let callbacks : Option NearestCallbackTag × Option RaycastCallbackTag :=
    match bvh_cache_type with
    | .FROM_VERTS | .FROM_LOOSEVERTS | .FROM_LOOSEVERTS_NO_HIDDEN =>
      (none, some .verts_spherecast)
    | .FROM_EDGES | .FROM_LOOSEEDGES | .FROM_LOOSEEDGES_NO_HIDDEN =>
      (some .edges_nearest, some .edges_spherecast)
    | .FROM_FACES => (some .faces_nearest, some .faces_spherecast)
    | .FROM_CORNER_TRIS | .FROM_CORNER_TRIS_NO_HIDDEN =>
      (some .corner_tris_nearest, some .corner_tris_spherecast)
  { tree := tree
    vert_positions := positions
    edges := edges
    face := face
    corner_verts := corner_verts
    corner_tris := corner_tris
    nearest_callback := callbacks.1
    raycast_callback := callbacks.2
    owned_tree := none }

/-- Embedding of `bvhtree_new_common`.  Returns `none` when the
`BLI_assert(IN_RANGE_INCL(elems_num_active, 0, elems_num))` programmer-error check
fires; otherwise the (possibly null) fresh tree, the resolved active count (the
source updates `elems_num_active` by reference) and the next allocation id. -/
def bvhtree_new_common (elems_num : ℕ) (elems_num_active : ℤ) (nextId : ℕ) :
    Option (Option BVHTree × ℤ × ℕ) :=
  if elems_num_active ≠ -1 then
    if 0 ≤ elems_num_active ∧ elems_num_active ≤ (elems_num : ℤ) then
      if elems_num_active = 0 then some (none, elems_num_active, nextId)
      else some (some (BLI_bvhtree_new nextId), elems_num_active, nextId + 1)
    else none
  else
    if (elems_num : ℤ) = 0 then some (none, (elems_num : ℤ), nextId)
    else some (some (BLI_bvhtree_new nextId), (elems_num : ℤ), nextId + 1)

/-- Embedding of `bvhtree_from_mesh_verts_create_tree` (including its final
`BLI_assert(BLI_bvhtree_get_len(tree) == verts_num_active)`). -/
def bvhtree_from_mesh_verts_create_tree (positions : List Vec3) (verts_mask : List Bool)
    (verts_num_active : ℤ) (nextId : ℕ) : Option (Option BVHTree × ℕ) :=
  match bvhtree_new_common positions.length verts_num_active nextId with
  | none => none
  | some (none, _, nid) => some (none, nid)
  | some (some tree0, resolved, nid) =>
    let tree := (List.range positions.length).foldl (fun t i =>
      if ¬ verts_mask = [] ∧ verts_mask.getD i false = false then t
      else BLI_bvhtree_insert t i [positions.getD i vzero]) tree0
    if (tree.inserts.length : ℤ) = resolved then some (some tree, nid) else none

/-- Embedding of `bvhtree_from_mesh_edges_create_tree` (no length assertion in the
source). -/
def bvhtree_from_mesh_edges_create_tree (positions : List Vec3) (edges : List (ℕ × ℕ))
    (edges_mask : List Bool) (edges_num_active : ℤ) (nextId : ℕ) :
    Option (Option BVHTree × ℕ) :=
  match bvhtree_new_common edges.length edges_num_active nextId with
  | none => none
  | some (none, _, nid) => some (none, nid)
  | some (some tree0, _, nid) =>
    let tree := (List.range edges.length).foldl (fun t i =>
      if ¬ edges_mask = [] ∧ edges_mask.getD i false = false then t
      else
        let e := edges.getD i (0, 0)
        BLI_bvhtree_insert t i [positions.getD e.1 vzero, positions.getD e.2 vzero]) tree0
    some (some tree, nid)

/-- Embedding of `bvhtree_from_mesh_corner_tris_create_tree` (early null return on
empty positions, then the common pre-check, inserts, and the length assertion). -/
def bvhtree_from_mesh_corner_tris_create_tree (positions : List Vec3)
    (corner_verts : List ℕ) (corner_tris : List (ℕ × ℕ × ℕ))
    (corner_tris_mask : List Bool) (corner_tris_num_active : ℤ) (nextId : ℕ) :
    Option (Option BVHTree × ℕ) :=
  if positions = [] then some (none, nextId)
  else
    match bvhtree_new_common corner_tris.length corner_tris_num_active nextId with
    | none => none
    | some (none, _, nid) => some (none, nid)
    | some (some tree0, resolved, nid) =>
      let tree := (List.range corner_tris.length).foldl (fun t i =>
        if ¬ corner_tris_mask = [] ∧ corner_tris_mask.getD i false = false then t
        else
          let tri := corner_tris.getD i (0, 0, 0)
          BLI_bvhtree_insert t i
            [positions.getD (corner_verts.getD tri.1 0) vzero,
             positions.getD (corner_verts.getD tri.2.1 0) vzero,
             positions.getD (corner_verts.getD tri.2.2 0) vzero]) tree0
      if (tree.inserts.length : ℤ) = resolved then some (some tree, nid) else none

/-- Model of the `VArray<bool>` visibility attributes: either the uniform
single-value fast path or a per-element array (missing entries read the
attribute default `false`). -/
inductive VArrayBool where
  | single : Bool → VArrayBool
  | varr : List Bool → VArrayBool
deriving DecidableEq, Repr

def VArrayBool.get : VArrayBool → ℕ → Bool
  | .single b, _ => b
  | .varr l, i => l.getD i false

/-- Test for the `is_single() && !get_internal_single()` fast path. -/
def VArrayBool.isSingleFalse : VArrayBool → Bool
  | .single b => !b
  | .varr _ => false

/-- Embedding of the mesh geometry and attribute data consumed by the builders
(read-only collaborator of the file under verification). -/
structure MeshData where
  vert_positions : List Vec3
  edges : List (ℕ × ℕ)
  corner_verts : List ℕ
  corner_edges : List ℕ
  corner_tris : List (ℕ × ℕ × ℕ)
  faces_offsets : List ℕ
  mfaces : List MFace
  hide_vert : VArrayBool
  hide_edge : VArrayBool
  hide_poly : VArrayBool
deriving DecidableEq, Repr

def MeshData.verts_num (m : MeshData) : ℕ := m.vert_positions.length

def MeshData.edges_num (m : MeshData) : ℕ := m.edges.length

def MeshData.faces_num (m : MeshData) : ℕ := m.faces_offsets.length - 1

/-- Size (corner count) of face `i` from the `OffsetIndices` array. -/
def MeshData.faceSize (m : MeshData) (i : ℕ) : ℕ :=
  m.faces_offsets.getD (i + 1) 0 - m.faces_offsets.getD i 0

/-- Corner-edge slice of face `i` (`corner_edges.slice(faces[i])`). -/
def MeshData.faceCornerEdges (m : MeshData) (i : ℕ) : List ℕ :=
  (List.range (m.faceSize i)).map (fun k => m.corner_edges.getD (m.faces_offsets.getD i 0 + k) 0)

/-- Embedding of `blender::bke::mesh::face_triangles_num`: an n-gon holds `n - 2`
triangles. -/
def face_triangles_num (n : ℕ) : ℕ := n - 2

/-- Embedding of `blender::bke::mesh::face_triangles_range`: face `i` owns the
contiguous triangle indices starting at `offset[i] - 2 * i`. -/
def face_triangles_range (m : MeshData) (i : ℕ) : List ℕ :=
  List.range' (m.faces_offsets.getD i 0 - 2 * i) (face_triangles_num (m.faceSize i)) 1

/-- Clear one mask bit, decrementing the running count only when the bit was set:
the `if (mask[i]) { mask[i].reset(); count--; }` step of the mask derivations. -/
def maskClear (mc : List Bool × ℤ) (i : ℕ) : List Bool × ℤ :=
  if mc.1.getD i false then (mc.1.set i false, mc.2 - 1) else mc

/-- Per-edge step of the first pass of `loose_verts_no_hidden_mask_get`: a hidden
edge is skipped, otherwise both endpoints are cleared. -/
def looseVertsEdgePass (m : MeshData) (mc : List Bool × ℤ) (i : ℕ) : List Bool × ℤ :=
  if m.hide_edge.get i then mc
  else maskClear (maskClear mc (m.edges.getD i (0, 0)).1) (m.edges.getD i (0, 0)).2

/-- Per-vertex step of the second pass of `loose_verts_no_hidden_mask_get`: clear a
still-active vertex that is itself flagged hidden. -/
def looseVertsHiddenPass (m : MeshData) (mc : List Bool × ℤ) (vert : ℕ) : List Bool × ℤ :=
  if mc.1.getD vert false && m.hide_vert.get vert then (mc.1.set vert false, mc.2 - 1)
  else mc

/-- Embedding of `loose_verts_no_hidden_mask_get`: all vertices start active, both
endpoints of every non-hidden edge are cleared, and only if any vertices remain
active a second pass clears the ones flagged hidden; returns the mask and the
count of still-active vertices. -/
def loose_verts_no_hidden_mask_get (m : MeshData) : List Bool × ℤ :=
  let start : List Bool × ℤ := (List.replicate m.verts_num true, (m.verts_num : ℤ))
  let mc := (List.range m.edges.length).foldl (looseVertsEdgePass m) start
  if mc.2 ≠ 0 then (List.range mc.1.length).foldl (looseVertsHiddenPass m) mc else mc

/-- Per-face step of the first pass of `loose_edges_no_hidden_mask_get`. -/
def looseEdgesFacePass (m : MeshData) (mc : List Bool × ℤ) (i : ℕ) : List Bool × ℤ :=
  if m.hide_poly.get i then mc
  else (m.faceCornerEdges i).foldl maskClear mc

/-- Per-edge step of the second pass of `loose_edges_no_hidden_mask_get`. -/
def looseEdgesHiddenPass (m : MeshData) (mc : List Bool × ℤ) (edge : ℕ) : List Bool × ℤ :=
  if mc.1.getD edge false && m.hide_edge.get edge then (mc.1.set edge false, mc.2 - 1)
  else mc

/-- Embedding of `loose_edges_no_hidden_mask_get`. -/
def loose_edges_no_hidden_mask_get (m : MeshData) : List Bool × ℤ :=
  let start : List Bool × ℤ := (List.replicate m.edges_num true, (m.edges_num : ℤ))
  let mc := (List.range m.faces_num).foldl (looseEdgesFacePass m) start
  if mc.2 ≠ 0 then (List.range mc.1.length).foldl (looseEdgesHiddenPass m) mc else mc

/-- Embedding of `corner_tris_no_hidden_map_get`.  On the uniformly-visible fast
path the empty mask is returned and the caller's active-length variable
(`r_active`) is left untouched, exactly as the source leaves the out-parameter
unset there. -/
def corner_tris_no_hidden_map_get (m : MeshData) (r_active : ℤ) : List Bool × ℤ :=
  if m.hide_poly.isSingleFalse then ([], r_active)
  else
    let st : List Bool × ℕ × ℤ :=
      (List.range m.faces_num).foldl (fun st i =>
        let triangles_num := face_triangles_num (m.faceSize i)
        if m.hide_poly.get i then (st.1, st.2.1 + triangles_num, st.2.2)
        else (List.range triangles_num).foldl
          (fun st _ => (st.1.set st.2.1 true, st.2.1 + 1, st.2.2 + 1)) st)
        (List.replicate m.corner_tris.length false, 0, 0)
    (st.1, st.2.2)

/-- Embedding of `BVHCacheItem` (an owned, possibly null tree in one cache slot). -/
structure BVHCacheItem where
  tree : Option BVHTree
deriving DecidableEq, Repr

/-- Model of `SharedCache::ensure`: an empty slot runs the builder exactly once
and stores the result; a built slot is returned unchanged (no rebuild).  The
builder may report a fatal assertion (`none`). -/
def cache_ensure (slot : Option BVHCacheItem) (build : ℕ → Option (Option BVHTree × ℕ))
    (nextId : ℕ) : Option (BVHCacheItem × Option BVHCacheItem × ℕ) :=
  match slot with
  | some item => some (item, some item, nextId)
  | none =>
    match build nextId with
    | none => none
    | some (t, nid) => some (⟨t⟩, some ⟨t⟩, nid)

/-- Modelled from the spec: the per-mesh runtime cache, one named slot per
geometry-kind variant (`none` = empty, `some` = built), plus the allocation
counter that gives each built tree its identity. -/
structure MeshRuntime where
  bvh_cache_verts : Option BVHCacheItem := none
  bvh_cache_loose_verts : Option BVHCacheItem := none
  bvh_cache_loose_verts_no_hidden : Option BVHCacheItem := none
  bvh_cache_edges : Option BVHCacheItem := none
  bvh_cache_loose_edges : Option BVHCacheItem := none
  bvh_cache_loose_edges_no_hidden : Option BVHCacheItem := none
  bvh_cache_faces : Option BVHCacheItem := none
  bvh_cache_corner_tris : Option BVHCacheItem := none
  bvh_cache_corner_tris_no_hidden : Option BVHCacheItem := none
  nextId : ℕ := 0
deriving DecidableEq, Repr

/-- The `if (data.tree) { BLI_bvhtree_balance(data.tree); }` epilogue shared by
every `ensure` builder closure. -/
def balance_built_tree (b : Option (Option BVHTree × ℕ)) : Option (Option BVHTree × ℕ) :=
  match b with
  | none => none
  | some (t, nid) => some (bvhtree_balance t, nid)

/-- Embedding of `Mesh::bvh_verts`. -/
def Mesh.bvh_verts (m : MeshData) (rt : MeshRuntime) :
    Option (BVHTreeFromMesh × MeshRuntime) :=
  let positions := m.vert_positions
  match cache_ensure rt.bvh_cache_verts
      (fun nid => balance_built_tree (bvhtree_from_mesh_verts_create_tree positions [] (-1) nid))
      rt.nextId with
  | none => none
  | some (item, slot, nid) =>
    some (bvhtree_from_mesh_setup_data item.tree .FROM_VERTS positions [] [] [] [],
      { rt with bvh_cache_verts := slot, nextId := nid })

/-- Embedding of `Mesh::bvh_loose_no_hidden_verts`.  The derived mask is bound and
then dropped, and the builder is invoked with the empty mask and `-1`, exactly as
the source does. -/
def Mesh.bvh_loose_no_hidden_verts (m : MeshData) (rt : MeshRuntime) :
    Option (BVHTreeFromMesh × MeshRuntime) :=
  let positions := m.vert_positions
  match cache_ensure rt.bvh_cache_loose_verts_no_hidden
      (fun nid =>
        let _mask := loose_verts_no_hidden_mask_get m
        balance_built_tree (bvhtree_from_mesh_verts_create_tree positions [] (-1) nid))
      rt.nextId with
  | none => none
  | some (item, slot, nid) =>
    some (bvhtree_from_mesh_setup_data item.tree .FROM_LOOSEVERTS_NO_HIDDEN positions [] [] [] [],
      { rt with bvh_cache_loose_verts_no_hidden := slot, nextId := nid })

/-- Embedding of `Mesh::bvh_edges`. -/
def Mesh.bvh_edges (m : MeshData) (rt : MeshRuntime) :
    Option (BVHTreeFromMesh × MeshRuntime) :=
  let positions := m.vert_positions
  let edges := m.edges
  match cache_ensure rt.bvh_cache_edges
      (fun nid =>
        balance_built_tree (bvhtree_from_mesh_edges_create_tree positions edges [] (-1) nid))
      rt.nextId with
  | none => none
  | some (item, slot, nid) =>
    some (bvhtree_from_mesh_setup_data item.tree .FROM_EDGES positions edges [] [] [],
      { rt with bvh_cache_edges := slot, nextId := nid })

/-- Embedding of `Mesh::bvh_loose_no_hidden_edges`.  The builder receives the
derived mask and count, but the bundle is set up with an empty edge span
(`{}`), exactly as the source passes it. -/
def Mesh.bvh_loose_no_hidden_edges (m : MeshData) (rt : MeshRuntime) :
    Option (BVHTreeFromMesh × MeshRuntime) :=
  let positions := m.vert_positions
  let edges := m.edges
  match cache_ensure rt.bvh_cache_loose_edges_no_hidden
      (fun nid =>
        let mc := loose_edges_no_hidden_mask_get m
        balance_built_tree (bvhtree_from_mesh_edges_create_tree positions edges mc.1 mc.2 nid))
      rt.nextId with
  | none => none
  | some (item, slot, nid) =>
    some (bvhtree_from_mesh_setup_data item.tree .FROM_LOOSEEDGES_NO_HIDDEN positions [] [] [] [],
      { rt with bvh_cache_loose_edges_no_hidden := slot, nextId := nid })

/-- Embedding of `Mesh::bvh_corner_tris`. -/
def Mesh.bvh_corner_tris (m : MeshData) (rt : MeshRuntime) :
    Option (BVHTreeFromMesh × MeshRuntime) :=
  let positions := m.vert_positions
  let corner_verts := m.corner_verts
  let corner_tris := m.corner_tris
  match cache_ensure rt.bvh_cache_corner_tris
      (fun nid =>
        balance_built_tree (bvhtree_from_mesh_corner_tris_create_tree positions corner_verts
          corner_tris [] (-1) nid))
      rt.nextId with
  | none => none
  | some (item, slot, nid) =>
    some (bvhtree_from_mesh_setup_data item.tree .FROM_CORNER_TRIS positions [] corner_verts
        corner_tris [],
      { rt with bvh_cache_corner_tris := slot, nextId := nid })

/-- Embedding of `Mesh::bvh_corner_tris_no_hidden`.  Both the `ensure` call and the
subsequent read go through the `bvh_cache_verts` slot, exactly as in the source
(which never touches `bvh_cache_corner_tris_no_hidden`). -/
def Mesh.bvh_corner_tris_no_hidden (m : MeshData) (rt : MeshRuntime) :
    Option (BVHTreeFromMesh × MeshRuntime) :=
  let positions := m.vert_positions
  let corner_verts := m.corner_verts
  let corner_tris := m.corner_tris
  match cache_ensure rt.bvh_cache_verts
      (fun nid =>
        let mc := corner_tris_no_hidden_map_get m (-1)
        balance_built_tree (bvhtree_from_mesh_corner_tris_create_tree positions corner_verts
          corner_tris mc.1 mc.2 nid))
      rt.nextId with
  | none => none
  | some (item, slot, nid) =>
    some (bvhtree_from_mesh_setup_data item.tree .FROM_CORNER_TRIS_NO_HIDDEN positions []
        corner_verts corner_tris [],
      { rt with bvh_cache_verts := slot, nextId := nid })

/-- Embedding of `BKE_bvhtree_from_mesh_tris_init`: delegate to the cached
triangulated-face tree when the subset covers all faces, otherwise build a fresh
exclusively-owned tree over the triangles of the listed faces, inserting each
triangle under its original triangle index, without touching the cache. -/
def BKE_bvhtree_from_mesh_tris_init (m : MeshData) (faces_mask : List ℕ)
    (rt : MeshRuntime) : Option (BVHTreeFromMesh × MeshRuntime) :=
  if faces_mask.length = m.faces_num then Mesh.bvh_corner_tris m rt
  else
    let positions := m.vert_positions
    let edges := m.edges
    let corner_verts := m.corner_verts
    let corner_tris := m.corner_tris
    let r0 := bvhtree_from_mesh_setup_data none .FROM_CORNER_TRIS positions edges corner_verts
      corner_tris []
    let tris_num := faces_mask.foldl (fun acc i => acc + face_triangles_num (m.faceSize i)) 0
    match bvhtree_new_common tris_num (-1) rt.nextId with
    | none => none
    | some (none, _, nid) =>
      some ({ r0 with owned_tree := none, tree := none }, { rt with nextId := nid })
    | some (some tree0, _, nid) =>
      let tree := faces_mask.foldl (fun t face_i =>
        (face_triangles_range m face_i).foldl (fun t tri_i =>
          BLI_bvhtree_insert t tri_i
            [positions.getD (corner_verts.getD (corner_tris.getD tri_i (0, 0, 0)).1 0) vzero,
             positions.getD (corner_verts.getD (corner_tris.getD tri_i (0, 0, 0)).2.1 0) vzero,
             positions.getD (corner_verts.getD (corner_tris.getD tri_i (0, 0, 0)).2.2 0) vzero]) t)
        tree0
      let tree := BLI_bvhtree_balance tree
      some ({ r0 with owned_tree := some tree, tree := some tree }, { rt with nextId := nid })

/-- The sub-triangle list the source loop of the legacy-face callbacks actually
visits for face `index`: `(v1, v2, v3)` and, when `v4` is present, the fan
triangle `(v1, v3, v4)` produced by the rotation `t1 = t2; t2 = t3`. -/
def faceFanTris (data : BVHTreeFromMesh) (index : ℕ) : List (Vec3 × Vec3 × Vec3) :=
  let face := faceOf data index
  (posOf data face.v1, posOf data face.v2, posOf data face.v3) ::
    (if face.v4 ≠ 0 then [(posOf data face.v1, posOf data face.v3, posOf data face.v4)]
     else [])

/-- The sub-triangle list asserted by the spec sentence under test (claim C1):
`(v1, v2, v3)` and, when `v4` is present, `(v2, v3, v4)`. -/
def faceClaimedTris (data : BVHTreeFromMesh) (index : ℕ) : List (Vec3 × Vec3 × Vec3) :=
  let face := faceOf data index
  (posOf data face.v1, posOf data face.v2, posOf data face.v3) ::
    (if face.v4 ≠ 0 then [(posOf data face.v2, posOf data face.v3, posOf data face.v4)]
     else [])

/-- Fold the per-triangle nearest-point test over an explicit triangle list. -/
def tris_nearest_fold (prims : GeomPrims) (index : ℕ) (co : Vec3)
    (tris : List (Vec3 × Vec3 × Vec3)) (nearest : BVHTreeNearest) : BVHTreeNearest :=
  tris.foldl (fun n t => faces_nearest_point_iter prims index co t.1 t.2.1 t.2.2 n) nearest

/-- Fold the per-triangle sphere-cast test over an explicit triangle list. -/
def tris_spherecast_fold (prims : GeomPrims) (index : ℕ) (ray : BVHTreeRay)
    (tris : List (Vec3 × Vec3 × Vec3)) (hit : BVHTreeRayHit) : BVHTreeRayHit :=
  tris.foldl (fun h t => faces_spherecast_iter prims index ray t.1 t.2.1 t.2.2 h) hit

/-- Spec-following definition of the legacy-face nearest-point callback as claim C1
words it: the triangles tested are exactly `(v1, v2, v3)` and `(v2, v3, v4)`. -/
def mesh_faces_nearest_point_claimed (prims : GeomPrims) (data : BVHTreeFromMesh)
    (index : ℕ) (co : Vec3) (nearest : BVHTreeNearest) : BVHTreeNearest :=
  tris_nearest_fold prims index co (faceClaimedTris data index) nearest

/-- Spec-following definition of the legacy-face ray-cast callback as claim C1
words it. -/
def mesh_faces_spherecast_claimed (prims : GeomPrims) (data : BVHTreeFromMesh)
    (index : ℕ) (ray : BVHTreeRay) (hit : BVHTreeRayHit) : BVHTreeRayHit :=
  tris_spherecast_fold prims index ray (faceClaimedTris data index) hit

/-- Squared distance from `co` to the first sub-triangle `(v1, v2, v3)` of legacy
face `index`. -/
def faceTriDist1 (data : BVHTreeFromMesh) (index : ℕ) (co : Vec3) : Frac :=
  len_squared_v3v3 co (closest_on_tri_to_point_v3 co (posOf data (faceOf data index).v1)
    (posOf data (faceOf data index).v2) (posOf data (faceOf data index).v3))

/-- Squared distance from `co` to the second (fan) sub-triangle `(v1, v3, v4)` of
legacy face `index`. -/
def faceTriDist2 (data : BVHTreeFromMesh) (index : ℕ) (co : Vec3) : Frac :=
  len_squared_v3v3 co (closest_on_tri_to_point_v3 co (posOf data (faceOf data index).v1)
    (posOf data (faceOf data index).v3) (posOf data (faceOf data index).v4))

/-- Integer-coordinate vector shorthand for the concrete fixtures. -/
def qv (a b c : ℤ) : Vec3 := ⟨qi a, qi b, qi c⟩

/-- Concrete instantiation of the abstract math primitives for the closed witness
and counterexample theorems: squared length stands in for `len`, `normalize` is the
identity, the normal is the (unnormalized) cross product, and the opaque ray-tri
tests never hit (none of the closed statements depends on them). -/
def testPrims : GeomPrims :=
  { len_v3v3 := len_squared_v3v3
    normalize_v3 := fun v => v
    normal_tri_v3 := fun a b c => vcross (b - a) (c - a)
    isect_ray_tri := fun _ _ _ _ _ => none
    isect_sweeping_sphere_tri := fun _ _ _ _ _ _ => none }

/-- A running best initialized by the traversal service: no index, sentinel
distance. -/
def nearest0 : BVHTreeNearest := ⟨-1, vzero, vzero, FLT_MAX⟩

/-- A running best-hit initialized by the traversal service. -/
def hit0 : BVHTreeRayHit := ⟨-1, vzero, vzero, FLT_MAX⟩

/-- Concrete quad fixture for claim C1: a non-planar quad
`v1 = (0,0,0)`, `v2 = (2,0,0)`, `v3 = (2,2,0)`, `v4 = (0,2,2)` (vertex slot 0 is
unused so that `v4 = 0` keeps its "absent" meaning). -/
def cQuadData : BVHTreeFromMesh :=
  { tree := none
    vert_positions := [vzero, qv 0 0 0, qv 2 0 0, qv 2 2 0, qv 0 2 2]
    edges := []
    face := [⟨1, 2, 3, 4⟩]
    corner_verts := []
    corner_tris := []
    nearest_callback := none
    raycast_callback := none
    owned_tree := none }

/-- The centroid of the claimed second sub-triangle `(v2, v3, v4)` of `cQuadData`,
which lies strictly off both fan sub-triangles. -/
def cQuadCo : Vec3 := ⟨qi 4 / qi 3, qi 4 / qi 3, qi 2 / qi 3⟩

/-- A fresh, all-empty per-mesh runtime cache. -/
def freshRt : MeshRuntime := {}

/-- Placeholder result used only as the default of `Option.getD` in closed
statements whose `isSome` is proven alongside. -/
def dummyResult : BVHTreeFromMesh × MeshRuntime :=
  (bvhtree_from_mesh_setup_data none .FROM_VERTS [] [] [] [] [], {})

/-- Concrete one-triangle mesh fixture (three vertices, one triangular face). -/
def cMeshTri : MeshData :=
  { vert_positions := [qv 0 0 0, qv 1 0 0, qv 0 1 0]
    edges := []
    corner_verts := [0, 1, 2]
    corner_edges := []
    corner_tris := [(0, 1, 2)]
    faces_offsets := [0, 3]
    mfaces := []
    hide_vert := .single false
    hide_edge := .single false
    hide_poly := .single false }

/-- Concrete fixture for claim C3: a single vertex that is flagged hidden and
touched by no edge, so the loose-no-hidden mask has zero active vertices. -/
def cMeshHiddenVert : MeshData :=
  { vert_positions := [qv 0 0 0]
    edges := []
    corner_verts := []
    corner_edges := []
    corner_tris := []
    faces_offsets := [0]
    mfaces := []
    hide_vert := .varr [true]
    hide_edge := .single false
    hide_poly := .single false }

/-- Concrete fixture for claim C4: two vertices joined by one (loose, visible)
edge. -/
def cMeshOneEdge : MeshData :=
  { vert_positions := [qv 0 0 0, qv 1 0 0]
    edges := [(0, 1)]
    corner_verts := []
    corner_edges := []
    corner_tris := []
    faces_offsets := [0]
    mfaces := []
    hide_vert := .single false
    hide_edge := .single false
    hide_poly := .single false }

/-- Concrete fixture for the claim C5 witness: vertices 0 and 1 are touched by a
visible edge, vertex 2 is untouched but hidden, vertex 3 is untouched and
visible. -/
def cMeshLoose : MeshData :=
  { vert_positions := [qv 0 0 0, qv 1 0 0, qv 2 0 0, qv 3 0 0]
    edges := [(0, 1)]
    corner_verts := []
    corner_edges := []
    corner_tris := []
    faces_offsets := [0]
    mfaces := []
    hide_vert := .varr [false, false, true, false]
    hide_edge := .varr [false]
    hide_poly := .single false }

/-- Concrete fixture for the claim C9 witness: four vertices, two triangular
faces. -/
def cMeshTwoTris : MeshData :=
  { vert_positions := [qv 0 0 0, qv 1 0 0, qv 1 1 0, qv 0 1 0]
    edges := []
    corner_verts := [0, 1, 2, 0, 2, 3]
    corner_edges := []
    corner_tris := [(0, 1, 2), (3, 4, 5)]
    faces_offsets := [0, 3, 6]
    mfaces := []
    hide_vert := .single false
    hide_edge := .single false
    hide_poly := .single false }

/-- Concrete edge bundle for the claim C7 and C8 witnesses. -/
def cEdgeData : BVHTreeFromMesh :=
  { tree := none
    vert_positions := [qv 0 0 0, qv 1 0 0, qv 0 1 0]
    edges := [(0, 1)]
    face := []
    corner_verts := [0, 1, 2]
    corner_tris := [(0, 1, 2)]
    nearest_callback := none
    raycast_callback := none
    owned_tree := none }

/-- Ray for the claim C8 witness hit case: origin `(3, 0, 1)`, direction
`(0, 0, -2)`, radius 2; its unclamped closest approach to the edge
`(0,0,0)-(1,0,0)` of `cEdgeData` has edge factor 3, beyond endpoint `v2`. -/
def cRayHitCase : BVHTreeRay := ⟨qv 3 0 1, qv 0 0 (-2), qi 2⟩

/-- Same ray with radius 1: after clamping to `v2` the approach point is outside
the radius, so no hit may be registered. -/
def cRayMissCase : BVHTreeRay := ⟨qv 3 0 1, qv 0 0 (-2), qi 1⟩

/-- Inserted primitives of a possibly-null tree (null holds none). -/
def treeInserts : Option BVHTree → List BVHInsert
  | none => []
  | some t => t.inserts

/-- First endpoint position of edge `index` in a bundle. -/
def edgeV1 (data : BVHTreeFromMesh) (index : ℕ) : Vec3 := posOf data (edgeOf data index).1

/-- Second endpoint position of edge `index` in a bundle. -/
def edgeV2 (data : BVHTreeFromMesh) (index : ℕ) : Vec3 := posOf data (edgeOf data index).2

/-- The tuple of all nine cache slots of a runtime (used to state that an
operation leaves the whole cache untouched). -/
def slotsOf (rt : MeshRuntime) :
    Option BVHCacheItem × Option BVHCacheItem × Option BVHCacheItem × Option BVHCacheItem ×
    Option BVHCacheItem × Option BVHCacheItem × Option BVHCacheItem × Option BVHCacheItem ×
    Option BVHCacheItem :=
  (rt.bvh_cache_verts, rt.bvh_cache_loose_verts, rt.bvh_cache_loose_verts_no_hidden,
   rt.bvh_cache_edges, rt.bvh_cache_loose_edges, rt.bvh_cache_loose_edges_no_hidden,
   rt.bvh_cache_faces, rt.bvh_cache_corner_tris, rt.bvh_cache_corner_tris_no_hidden)

/-- The primitives `BKE_bvhtree_from_mesh_tris_init` is specified to insert for a
proper subset: every face of the subset expanded to its triangle range, each
triangle under its original triangle index with its three corner positions. -/
def tris_init_expected_inserts (m : MeshData) (faces_mask : List ℕ) : List BVHInsert :=
  faces_mask.flatMap (fun face_i =>
    (face_triangles_range m face_i).map (fun tri_i =>
      ⟨tri_i,
       [m.vert_positions.getD (m.corner_verts.getD (m.corner_tris.getD tri_i (0, 0, 0)).1 0) vzero,
        m.vert_positions.getD (m.corner_verts.getD (m.corner_tris.getD tri_i (0, 0, 0)).2.1 0) vzero,
        m.vert_positions.getD (m.corner_verts.getD (m.corner_tris.getD tri_i (0, 0, 0)).2.2 0)
          vzero]⟩))

/-- First step of the claim C2 scenario: the plain-vertices tree of `cMeshTri`. -/
def c2_first : Option (BVHTreeFromMesh × MeshRuntime) := Mesh.bvh_verts cMeshTri freshRt

/-- Second step of the claim C2 scenario: the triangulated-faces-excluding-hidden
bundle requested right after. -/
def c2_second : Option (BVHTreeFromMesh × MeshRuntime) :=
  c2_first.bind (fun r => Mesh.bvh_corner_tris_no_hidden cMeshTri r.2)

/-- What the triangulated-faces-excluding-hidden kind's own builder produces on
`cMeshTri` from a fresh allocation counter. -/
def c2_own_build : Option (Option BVHTree × ℕ) :=
  bvhtree_from_mesh_corner_tris_create_tree cMeshTri.vert_positions cMeshTri.corner_verts
    cMeshTri.corner_tris (corner_tris_no_hidden_map_get cMeshTri (-1)).1
    (corner_tris_no_hidden_map_get cMeshTri (-1)).2 freshRt.nextId

/-- The claim C3 scenario: the loose-vertices-excluding-hidden bundle of a mesh
whose single vertex is hidden. -/
def c3_result : Option (BVHTreeFromMesh × MeshRuntime) :=
  Mesh.bvh_loose_no_hidden_verts cMeshHiddenVert freshRt

/-- The claim C4 scenario: the loose-edges-excluding-hidden bundle of a mesh with
one visible loose edge. -/
def c4_result : Option (BVHTreeFromMesh × MeshRuntime) :=
  Mesh.bvh_loose_no_hidden_edges cMeshOneEdge freshRt

/-- The plain-edges bundle of the same mesh, for contrast with `c4_result`. -/
def c4_plain_result : Option (BVHTreeFromMesh × MeshRuntime) :=
  Mesh.bvh_edges cMeshOneEdge freshRt

/-- Bundle whose edge 0 is zero-length (both endpoints are vertex 0), for the
claim C8 witness. -/
def cZeroEdgeData : BVHTreeFromMesh :=
  { tree := none
    vert_positions := [qv 0 0 0, qv 1 0 0]
    edges := [(0, 0)]
    face := []
    corner_verts := []
    corner_tris := []
    nearest_callback := none
    raycast_callback := none
    owned_tree := none }

theorem Frac.not_lt_of_le {a b : Frac} (h : a ≤ b) : ¬ b < a := by
  have h' : a.num * (b.den : ℤ) ≤ b.num * (a.den : ℤ) := h
  exact fun hlt =>
    absurd (hlt : b.num * (a.den : ℤ) < a.num * (b.den : ℤ)) (Int.not_lt.mpr h')

/-- A predicate preserved by every fold step (for steps drawn from the list) holds
after the fold. -/
theorem foldl_preserve_mem {α β : Type} (P : β → Prop) (f : β → α → β) :
    ∀ (l : List α), (∀ b a, a ∈ l → P b → P (f b a)) → ∀ b, P b → P (l.foldl f b) := by
  intro l
  induction l with
  | nil => intro _ b hb; exact hb
  | cons a t ih =>
    intro hstep b hb
    exact ih (fun b x hx hb2 => hstep b x (List.mem_cons_of_mem a hx) hb2) (f b a)
      (hstep b a (List.mem_cons_self a t) hb)

/-- A predicate established by some step of the fold and preserved by all later
steps holds after the fold. -/
theorem foldl_establish_mem {α β : Type} (P : β → Prop) (f : β → α → β) :
    ∀ (l : List α), (∀ b a, a ∈ l → P b → P (f b a)) → ∀ x, x ∈ l → (∀ b, P (f b x)) →
      ∀ b, P (l.foldl f b) := by
  intro l
  induction l with
  | nil => intro _ x hx; exact absurd hx (List.not_mem_nil x)
  | cons a t ih =>
    intro hstep x hx hest b
    rcases List.mem_cons.mp hx with h | h
    · subst h
      exact foldl_preserve_mem P f t (fun b y hy => hstep b y (List.mem_cons_of_mem _ hy)) _
        (hest b)
    · exact ih (fun b y hy => hstep b y (List.mem_cons_of_mem _ hy)) x h hest (f b a)

theorem getD_set_self (l : List Bool) (i : ℕ) : (l.set i false).getD i false = false := by
  induction l generalizing i with
  | nil => simp [List.getD]
  | cons b t ih =>
    cases i with
    | zero => simp [List.getD]
    | succ j => simpa [List.getD] using ih j

theorem getD_set_ne (l : List Bool) {i j : ℕ} (h : i ≠ j) (b : Bool) :
    (l.set i b).getD j false = l.getD j false := by
  induction l generalizing i j with
  | nil => simp
  | cons c t ih =>
    cases i with
    | zero =>
      cases j with
      | zero => exact absurd rfl h
      | succ j2 => simp [List.getD]
    | succ i2 =>
      cases j with
      | zero => simp [List.getD]
      | succ j2 => simpa [List.getD] using ih (fun hc => h (by rw [hc]))

theorem getD_replicate_true {n v : ℕ} (h : v < n) :
    (List.replicate n true).getD v false = true := by
  induction n generalizing v with
  | zero => omega
  | succ k ih =>
    cases v with
    | zero => simp [List.replicate, List.getD]
    | succ w => simpa [List.replicate, List.getD] using ih (by omega)

theorem count_set_false (l : List Bool) (i : ℕ) (h : l.getD i false = true) :
    (l.set i false).count true + 1 = l.count true := by
  induction l generalizing i with
  | nil => simp [List.getD] at h
  | cons b t ih =>
    cases i with
    | zero =>
      have hb : b = true := by simpa [List.getD] using h
      subst hb
      simp [List.count_cons]
    | succ j =>
      have h2 : t.getD j false = true := by simpa [List.getD] using h
      have := ih j h2
      cases b <;> simp [List.count_cons, this]

theorem count_replicate_true (n : ℕ) : (List.replicate n true).count true = n := by
  induction n with
  | zero => simp
  | succ k ih => simp [List.replicate, List.count_cons, ih]

/-- Claim C10: vertex-kind bundles get a null nearest callback and the vertex
sphere-cast ray callback; edge- and face-kind bundles get both callbacks
non-null. -/
theorem c10_setup_data_callbacks (tree : Option BVHTree) (positions : List Vec3)
    (edges : List (ℕ × ℕ)) (corner_verts : List ℕ) (corner_tris : List (ℕ × ℕ × ℕ))
    (face : List MFace) :
    ((bvhtree_from_mesh_setup_data tree .FROM_VERTS positions edges corner_verts corner_tris
        face).nearest_callback = none
      ∧ (bvhtree_from_mesh_setup_data tree .FROM_VERTS positions edges corner_verts corner_tris
        face).raycast_callback = some .verts_spherecast)
    ∧ ((bvhtree_from_mesh_setup_data tree .FROM_LOOSEVERTS positions edges corner_verts
        corner_tris face).nearest_callback = none
      ∧ (bvhtree_from_mesh_setup_data tree .FROM_LOOSEVERTS positions edges corner_verts
        corner_tris face).raycast_callback = some .verts_spherecast)
    ∧ ((bvhtree_from_mesh_setup_data tree .FROM_LOOSEVERTS_NO_HIDDEN positions edges corner_verts
        corner_tris face).nearest_callback = none
      ∧ (bvhtree_from_mesh_setup_data tree .FROM_LOOSEVERTS_NO_HIDDEN positions edges corner_verts
        corner_tris face).raycast_callback = some .verts_spherecast)
    ∧ ((bvhtree_from_mesh_setup_data tree .FROM_EDGES positions edges corner_verts corner_tris
        face).nearest_callback.isSome = true
      ∧ (bvhtree_from_mesh_setup_data tree .FROM_EDGES positions edges corner_verts corner_tris
        face).raycast_callback.isSome = true)
    ∧ ((bvhtree_from_mesh_setup_data tree .FROM_LOOSEEDGES positions edges corner_verts
        corner_tris face).nearest_callback.isSome = true
      ∧ (bvhtree_from_mesh_setup_data tree .FROM_LOOSEEDGES positions edges corner_verts
        corner_tris face).raycast_callback.isSome = true)
    ∧ ((bvhtree_from_mesh_setup_data tree .FROM_LOOSEEDGES_NO_HIDDEN positions edges corner_verts
        corner_tris face).nearest_callback.isSome = true
      ∧ (bvhtree_from_mesh_setup_data tree .FROM_LOOSEEDGES_NO_HIDDEN positions edges corner_verts
        corner_tris face).raycast_callback.isSome = true)
    ∧ ((bvhtree_from_mesh_setup_data tree .FROM_FACES positions edges corner_verts corner_tris
        face).nearest_callback.isSome = true
      ∧ (bvhtree_from_mesh_setup_data tree .FROM_FACES positions edges corner_verts corner_tris
        face).raycast_callback.isSome = true)
    ∧ ((bvhtree_from_mesh_setup_data tree .FROM_CORNER_TRIS positions edges corner_verts
        corner_tris face).nearest_callback.isSome = true
      ∧ (bvhtree_from_mesh_setup_data tree .FROM_CORNER_TRIS positions edges corner_verts
        corner_tris face).raycast_callback.isSome = true)
    ∧ ((bvhtree_from_mesh_setup_data tree .FROM_CORNER_TRIS_NO_HIDDEN positions edges
        corner_verts corner_tris face).nearest_callback.isSome = true
      ∧ (bvhtree_from_mesh_setup_data tree .FROM_CORNER_TRIS_NO_HIDDEN positions edges
        corner_verts corner_tris face).raycast_callback.isSome = true) :=
  ⟨⟨rfl, rfl⟩, ⟨rfl, rfl⟩, ⟨rfl, rfl⟩, ⟨rfl, rfl⟩, ⟨rfl, rfl⟩, ⟨rfl, rfl⟩, ⟨rfl, rfl⟩,
   ⟨rfl, rfl⟩, ⟨rfl, rfl⟩⟩

/-- Claim C6: a zero active count (explicit, or recomputed from a zero total on
`-1`) yields an immediate null tree with no allocation; balancing a null tree is a
no-op; an explicit active count other than `-1` outside `[0, elems_num]` trips the
fatal assertion, and inside the range it never does. -/
theorem c6_zero_active_and_assert :
    (∀ (n : ℕ) (s : ℕ), bvhtree_new_common n 0 s = some (none, 0, s))
    ∧ (∀ s : ℕ, bvhtree_new_common 0 (-1) s = some (none, 0, s))
    ∧ bvhtree_balance none = none
    ∧ (∀ (n : ℕ) (a : ℤ) (s : ℕ), a ≠ -1 → ¬ (0 ≤ a ∧ a ≤ (n : ℤ)) →
        bvhtree_new_common n a s = none)
    ∧ (∀ (n : ℕ) (a : ℤ) (s : ℕ), a ≠ -1 → 0 ≤ a → a ≤ (n : ℤ) →
        bvhtree_new_common n a s ≠ none) := by
  refine ⟨?_, ?_, rfl, ?_, ?_⟩
  · intro n s
    simp [bvhtree_new_common, Int.natCast_nonneg]
  · intro s
    simp [bvhtree_new_common]
  · intro n a s h1 h2
    simp [bvhtree_new_common, h1, h2]
  · intro n a s h1 h2 h3
    simp only [bvhtree_new_common, h1, if_true, ne_eq, not_false_iff]
    simp [h1, h2, h3]
    split <;> simp

theorem c6_zero_active_and_assert_witness :
    (((5 : ℤ) ≠ -1 ∧ ¬ ((0 : ℤ) ≤ 5 ∧ (5 : ℤ) ≤ ((1 : ℕ) : ℤ)))
      ∧ bvhtree_new_common 1 5 0 = none)
    ∧ (((2 : ℤ) ≠ -1 ∧ (0 : ℤ) ≤ 2 ∧ (2 : ℤ) ≤ ((3 : ℕ) : ℤ))
      ∧ bvhtree_new_common 3 2 0 ≠ none) :=
  ⟨⟨⟨by decide, by decide⟩,
    c6_zero_active_and_assert.2.2.2.1 1 5 0 (by decide) (by decide)⟩,
   ⟨⟨by decide, by decide, by decide⟩,
    c6_zero_active_and_assert.2.2.2.2 3 2 0 (by decide) (by decide) (by decide)⟩⟩

/-- Claim C2, evaluated at the failing input `cMeshTri`: requesting the
plain-vertices tree and then the triangulated-faces-excluding-hidden tree returns
the very same underlying tree for both kinds (the second getter reads and writes
the `bvh_cache_verts` slot), the dedicated
`bvh_cache_corner_tris_no_hidden` slot stays empty, and the served tree's
primitives are the three vertex points rather than what that kind's own builder
(one triangle primitive) produces. -/
theorem c2_cache_slot_aliasing :
    c2_first.isSome
    ∧ c2_second.isSome
    ∧ (c2_second.getD dummyResult).1.tree = (c2_first.getD dummyResult).1.tree
    ∧ (c2_second.getD dummyResult).2.bvh_cache_corner_tris_no_hidden = none
    ∧ (treeInserts ((c2_second.getD dummyResult).1.tree)).length = 3
    ∧ c2_own_build.isSome
    ∧ treeInserts ((c2_second.getD dummyResult).1.tree)
        ≠ treeInserts (c2_own_build.getD (none, 0)).1 := by
  decide

/-- Claim C3, evaluated at the failing input `cMeshHiddenVert`: the derived
loose-vertex-excluding-hidden mask has zero active vertices, yet the built tree
holds one inserted primitive (the builder is invoked with the empty mask and
`-1` instead of the derived mask and count). -/
theorem c3_loose_verts_mask_discarded :
    (loose_verts_no_hidden_mask_get cMeshHiddenVert).2 = 0
    ∧ (loose_verts_no_hidden_mask_get cMeshHiddenVert).1 = [false]
    ∧ c3_result.isSome
    ∧ (treeInserts ((c3_result.getD dummyResult).1.tree)).length = 1 := by
  decide

/-- Claim C4, evaluated at the failing input `cMeshOneEdge`: the
loose-edges-excluding-hidden bundle carries an empty edge-list reference even
though the mesh has an edge (and the tree contains it), while the plain-edges
bundle of the same mesh references the mesh's edge list. -/
theorem c4_loose_edges_bundle_empty_edges :
    c4_result.isSome
    ∧ (c4_result.getD dummyResult).1.edges = []
    ∧ cMeshOneEdge.edges ≠ []
    ∧ treeInserts ((c4_result.getD dummyResult).1.tree) ≠ []
    ∧ (c4_result.getD dummyResult).1.raycast_callback = some .edges_spherecast
    ∧ c4_plain_result.isSome
    ∧ (c4_plain_result.getD dummyResult).1.edges = cMeshOneEdge.edges := by
  decide

/-- Claim C7: the triangle and edge nearest-point callbacks overwrite the running
best only on strict improvement of the squared distance — storing the candidate
index, squared distance, position, and the triangle's face normal respectively the
normalized edge direction — and return the running best entirely unchanged
otherwise. -/
theorem c7_nearest_strict_improvement (prims : GeomPrims) (data : BVHTreeFromMesh)
    (index : ℕ) (co : Vec3) (nearest : BVHTreeNearest) :
    (len_squared_v3v3 co (closest_on_tri_to_point_v3 co (triV0 data index) (triV1 data index)
          (triV2 data index)) < nearest.dist_sq →
      mesh_corner_tris_nearest_point prims data index co nearest
        = ⟨(index : ℤ),
           closest_on_tri_to_point_v3 co (triV0 data index) (triV1 data index) (triV2 data index),
           prims.normal_tri_v3 (triV0 data index) (triV1 data index) (triV2 data index),
           len_squared_v3v3 co (closest_on_tri_to_point_v3 co (triV0 data index)
             (triV1 data index) (triV2 data index))⟩)
    ∧ (¬ len_squared_v3v3 co (closest_on_tri_to_point_v3 co (triV0 data index) (triV1 data index)
          (triV2 data index)) < nearest.dist_sq →
      mesh_corner_tris_nearest_point prims data index co nearest = nearest)
    ∧ (len_squared_v3v3 (closest_to_line_segment_v3 co (edgeV1 data index) (edgeV2 data index))
          co < nearest.dist_sq →
      mesh_edges_nearest_point prims data index co nearest
        = ⟨(index : ℤ),
           closest_to_line_segment_v3 co (edgeV1 data index) (edgeV2 data index),
           prims.normalize_v3 (edgeV1 data index - edgeV2 data index),
           len_squared_v3v3 (closest_to_line_segment_v3 co (edgeV1 data index)
             (edgeV2 data index)) co⟩)
    ∧ (¬ len_squared_v3v3 (closest_to_line_segment_v3 co (edgeV1 data index)
          (edgeV2 data index)) co < nearest.dist_sq →
      mesh_edges_nearest_point prims data index co nearest = nearest) := by
  refine ⟨?_, ?_, ?_, ?_⟩
  · intro h
    simp only [mesh_corner_tris_nearest_point]
    rw [if_pos h]
  · intro h
    simp only [mesh_corner_tris_nearest_point]
    rw [if_neg h]
  · intro h
    simp only [mesh_edges_nearest_point, edgeV1, edgeV2] at h ⊢
    rw [if_pos h]
  · intro h
    simp only [mesh_edges_nearest_point, edgeV1, edgeV2] at h ⊢
    rw [if_neg h]

theorem c7_nearest_strict_improvement_witness :
    (len_squared_v3v3 (qv 0 0 1) (closest_on_tri_to_point_v3 (qv 0 0 1) (triV0 cEdgeData 0)
        (triV1 cEdgeData 0) (triV2 cEdgeData 0)) < nearest0.dist_sq
      ∧ mesh_corner_tris_nearest_point testPrims cEdgeData 0 (qv 0 0 1) nearest0
        = ⟨(0 : ℤ),
           closest_on_tri_to_point_v3 (qv 0 0 1) (triV0 cEdgeData 0) (triV1 cEdgeData 0)
             (triV2 cEdgeData 0),
           testPrims.normal_tri_v3 (triV0 cEdgeData 0) (triV1 cEdgeData 0) (triV2 cEdgeData 0),
           len_squared_v3v3 (qv 0 0 1) (closest_on_tri_to_point_v3 (qv 0 0 1) (triV0 cEdgeData 0)
             (triV1 cEdgeData 0) (triV2 cEdgeData 0))⟩)
    ∧ (¬ len_squared_v3v3 (qv 0 0 1) (closest_on_tri_to_point_v3 (qv 0 0 1) (triV0 cEdgeData 0)
        (triV1 cEdgeData 0) (triV2 cEdgeData 0)) < (0 : Frac)
      ∧ mesh_corner_tris_nearest_point testPrims cEdgeData 0 (qv 0 0 1) ⟨-1, vzero, vzero, 0⟩
        = ⟨-1, vzero, vzero, 0⟩)
    ∧ (len_squared_v3v3 (closest_to_line_segment_v3 (qv 0 1 0) (edgeV1 cEdgeData 0)
        (edgeV2 cEdgeData 0)) (qv 0 1 0) < nearest0.dist_sq
      ∧ mesh_edges_nearest_point testPrims cEdgeData 0 (qv 0 1 0) nearest0
        = ⟨(0 : ℤ),
           closest_to_line_segment_v3 (qv 0 1 0) (edgeV1 cEdgeData 0) (edgeV2 cEdgeData 0),
           testPrims.normalize_v3 (edgeV1 cEdgeData 0 - edgeV2 cEdgeData 0),
           len_squared_v3v3 (closest_to_line_segment_v3 (qv 0 1 0) (edgeV1 cEdgeData 0)
             (edgeV2 cEdgeData 0)) (qv 0 1 0)⟩) :=
  ⟨⟨by decide,
    (c7_nearest_strict_improvement testPrims cEdgeData 0 (qv 0 0 1) nearest0).1 (by decide)⟩,
   ⟨by decide,
    (c7_nearest_strict_improvement testPrims cEdgeData 0 (qv 0 0 1)
      ⟨-1, vzero, vzero, 0⟩).2.1 (by decide)⟩,
   ⟨by decide,
    (c7_nearest_strict_improvement testPrims cEdgeData 0 (qv 0 1 0) nearest0).2.2.1
      (by decide)⟩⟩

theorem faces_iter_pos (prims : GeomPrims) (index : ℕ) (co t0 t1 t2 : Vec3)
    (n : BVHTreeNearest)
    (h : len_squared_v3v3 co (closest_on_tri_to_point_v3 co t0 t1 t2) < n.dist_sq) :
    faces_nearest_point_iter prims index co t0 t1 t2 n
      = ⟨(index : ℤ), closest_on_tri_to_point_v3 co t0 t1 t2, prims.normal_tri_v3 t0 t1 t2,
         len_squared_v3v3 co (closest_on_tri_to_point_v3 co t0 t1 t2)⟩ := by
  simp only [faces_nearest_point_iter]
  rw [if_pos h]

theorem faces_iter_neg (prims : GeomPrims) (index : ℕ) (co t0 t1 t2 : Vec3)
    (n : BVHTreeNearest)
    (h : ¬ len_squared_v3v3 co (closest_on_tri_to_point_v3 co t0 t1 t2) < n.dist_sq) :
    faces_nearest_point_iter prims index co t0 t1 t2 n = n := by
  simp only [faces_nearest_point_iter]
  rw [if_neg h]

theorem mesh_faces_nearest_point_quad (prims : GeomPrims) (data : BVHTreeFromMesh)
    (index : ℕ) (co : Vec3) (nearest : BVHTreeNearest)
    (hv4 : (faceOf data index).v4 ≠ 0) :
    mesh_faces_nearest_point prims data index co nearest
      = faces_nearest_point_iter prims index co (posOf data (faceOf data index).v1)
          (posOf data (faceOf data index).v3) (posOf data (faceOf data index).v4)
          (faces_nearest_point_iter prims index co (posOf data (faceOf data index).v1)
            (posOf data (faceOf data index).v2) (posOf data (faceOf data index).v3) nearest) := by
  simp [mesh_faces_nearest_point, hv4]

/-- Claim C1 as amended: both legacy-face callbacks test exactly the fan
sub-triangles `(v1, v2, v3)` and — when `v4` is present — `(v1, v3, v4)`, and the
nearest-point result carries the normal and squared distance of whichever fan
sub-triangle produced the winning (smallest, first on ties) squared distance. -/
theorem c1_faces_callbacks_fan_split (prims : GeomPrims) (data : BVHTreeFromMesh)
    (index : ℕ) (co : Vec3) (ray : BVHTreeRay) (nearest : BVHTreeNearest)
    (hit : BVHTreeRayHit) :
    mesh_faces_nearest_point prims data index co nearest
        = tris_nearest_fold prims index co (faceFanTris data index) nearest
    ∧ mesh_faces_spherecast prims data index ray hit
        = tris_spherecast_fold prims index ray (faceFanTris data index) hit
    ∧ ((faceOf data index).v4 ≠ 0 →
        faceTriDist2 data index co < faceTriDist1 data index co →
        faceTriDist2 data index co < nearest.dist_sq →
        (mesh_faces_nearest_point prims data index co nearest).no
            = prims.normal_tri_v3 (posOf data (faceOf data index).v1)
                (posOf data (faceOf data index).v3) (posOf data (faceOf data index).v4)
          ∧ (mesh_faces_nearest_point prims data index co nearest).dist_sq
            = faceTriDist2 data index co)
    ∧ ((faceOf data index).v4 ≠ 0 →
        faceTriDist1 data index co < nearest.dist_sq →
        ¬ faceTriDist2 data index co < faceTriDist1 data index co →
        (mesh_faces_nearest_point prims data index co nearest).no
            = prims.normal_tri_v3 (posOf data (faceOf data index).v1)
                (posOf data (faceOf data index).v2) (posOf data (faceOf data index).v3)
          ∧ (mesh_faces_nearest_point prims data index co nearest).dist_sq
            = faceTriDist1 data index co) := by
  refine ⟨?_, ?_, ?_, ?_⟩
  · by_cases h : (faceOf data index).v4 = 0
    · simp [mesh_faces_nearest_point, tris_nearest_fold, faceFanTris, h]
    · simp [mesh_faces_nearest_point, tris_nearest_fold, faceFanTris, h]
  · by_cases h : (faceOf data index).v4 = 0
    · simp [mesh_faces_spherecast, tris_spherecast_fold, faceFanTris, h]
    · simp [mesh_faces_spherecast, tris_spherecast_fold, faceFanTris, h]
  · intro hv4 h21 h2n
    simp only [faceTriDist1, faceTriDist2] at h21 h2n ⊢
    rw [mesh_faces_nearest_point_quad prims data index co nearest hv4]
    by_cases hc : len_squared_v3v3 co (closest_on_tri_to_point_v3 co
        (posOf data (faceOf data index).v1) (posOf data (faceOf data index).v2)
        (posOf data (faceOf data index).v3)) < nearest.dist_sq
    · rw [faces_iter_pos prims index co _ _ _ nearest hc]
      rw [faces_iter_pos prims index co (posOf data (faceOf data index).v1)
            (posOf data (faceOf data index).v3) (posOf data (faceOf data index).v4)
            ⟨(index : ℤ),
             closest_on_tri_to_point_v3 co (posOf data (faceOf data index).v1)
               (posOf data (faceOf data index).v2) (posOf data (faceOf data index).v3),
             prims.normal_tri_v3 (posOf data (faceOf data index).v1)
               (posOf data (faceOf data index).v2) (posOf data (faceOf data index).v3),
             len_squared_v3v3 co (closest_on_tri_to_point_v3 co
               (posOf data (faceOf data index).v1) (posOf data (faceOf data index).v2)
               (posOf data (faceOf data index).v3))⟩
            h21]
      exact ⟨rfl, rfl⟩
    · rw [faces_iter_neg prims index co _ _ _ nearest hc]
      rw [faces_iter_pos prims index co _ _ _ nearest h2n]
      exact ⟨rfl, rfl⟩
  · intro hv4 h1n h21
    simp only [faceTriDist1, faceTriDist2] at h1n h21 ⊢
    rw [mesh_faces_nearest_point_quad prims data index co nearest hv4]
    rw [faces_iter_pos prims index co _ _ _ nearest h1n]
    rw [faces_iter_neg prims index co (posOf data (faceOf data index).v1)
          (posOf data (faceOf data index).v3) (posOf data (faceOf data index).v4)
          ⟨(index : ℤ),
           closest_on_tri_to_point_v3 co (posOf data (faceOf data index).v1)
             (posOf data (faceOf data index).v2) (posOf data (faceOf data index).v3),
           prims.normal_tri_v3 (posOf data (faceOf data index).v1)
             (posOf data (faceOf data index).v2) (posOf data (faceOf data index).v3),
           len_squared_v3v3 co (closest_on_tri_to_point_v3 co
             (posOf data (faceOf data index).v1) (posOf data (faceOf data index).v2)
             (posOf data (faceOf data index).v3))⟩
          h21]
    exact ⟨rfl, rfl⟩

/-- Claim C1 as frozen is false on the code: on the non-planar quad `cQuadData`
with the query point `cQuadCo` the source callback (which tests the fan triangle
`(v1, v3, v4)`) answers squared distance `4/27`, while the spec's claimed split
`(v2, v3, v4)` would answer `0`. -/
theorem c1_faces_callbacks_counterexample :
    mesh_faces_nearest_point testPrims cQuadData 0 cQuadCo nearest0
      ≠ mesh_faces_nearest_point_claimed testPrims cQuadData 0 cQuadCo nearest0
    ∧ (mesh_faces_nearest_point testPrims cQuadData 0 cQuadCo nearest0).dist_sq = qi 4 / qi 27
    ∧ (mesh_faces_nearest_point_claimed testPrims cQuadData 0 cQuadCo nearest0).dist_sq = 0 := by
  decide

theorem c1_faces_callbacks_fan_split_witness :
    ((faceOf cQuadData 0).v4 ≠ 0
      ∧ faceTriDist2 cQuadData 0 cQuadCo < faceTriDist1 cQuadData 0 cQuadCo
      ∧ faceTriDist2 cQuadData 0 cQuadCo < nearest0.dist_sq)
    ∧ ((mesh_faces_nearest_point testPrims cQuadData 0 cQuadCo nearest0).no
        = testPrims.normal_tri_v3 (posOf cQuadData (faceOf cQuadData 0).v1)
            (posOf cQuadData (faceOf cQuadData 0).v3) (posOf cQuadData (faceOf cQuadData 0).v4)
      ∧ (mesh_faces_nearest_point testPrims cQuadData 0 cQuadCo nearest0).dist_sq
        = faceTriDist2 cQuadData 0 cQuadCo) :=
  ⟨⟨by decide, by decide, by decide⟩,
   (c1_faces_callbacks_fan_split testPrims cQuadData 0 cQuadCo ⟨vzero, vzero, 0⟩ nearest0
     hit0).2.2.1 (by decide) (by decide) (by decide)⟩

/-- Claim C8: the edge ray-cast callback falls back to the vertex sphere-cast on a
zero-length edge; given a line-line closest approach it rejects candidates behind
the ray origin or not strictly closer than the running best; it clamps the
approach point to the nearer endpoint when the unclamped edge parameter leaves
`[0, 1]`; and it accepts the hit exactly when the clamped point is within the
squared ray radius of the ray point. -/
theorem c8_edges_spherecast_clamp (prims : GeomPrims) (data : BVHTreeFromMesh)
    (index : ℕ) (ray : BVHTreeRay) (hit : BVHTreeRayHit) :
    (equals_v3v3 (edgeV1 data index) (edgeV2 data index) = true →
      mesh_edges_spherecast prims data index ray hit
        = mesh_verts_spherecast_do prims index (edgeV1 data index) ray hit)
    ∧ (∀ i1 i2 : Vec3, equals_v3v3 (edgeV1 data index) (edgeV2 data index) = false →
        isect_line_line_v3 (edgeV1 data index) (edgeV2 data index) ray.origin
            (ray.origin + ray.direction) = some (i1, i2) →
        ¬ (0 ≤ dot_v3v3v3 ray.origin i2 (ray.origin + ray.direction)
            ∧ prims.len_v3v3 ray.origin i2 < hit.dist) →
        mesh_edges_spherecast prims data index ray hit = hit)
    ∧ (∀ i1 i2 : Vec3, equals_v3v3 (edgeV1 data index) (edgeV2 data index) = false →
        isect_line_line_v3 (edgeV1 data index) (edgeV2 data index) ray.origin
            (ray.origin + ray.direction) = some (i1, i2) →
        (0 ≤ dot_v3v3v3 ray.origin i2 (ray.origin + ray.direction)
          ∧ prims.len_v3v3 ray.origin i2 < hit.dist) →
        ¬ line_point_factor_v3 i1 (edgeV1 data index) (edgeV2 data index) < 0 →
        1 < line_point_factor_v3 i1 (edgeV1 data index) (edgeV2 data index) →
        len_squared_v3v3 (edgeV2 data index) i2 ≤ square_f ray.radius →
        mesh_edges_spherecast prims data index ray hit
          = ⟨(index : ℤ), i2, hit.no, prims.len_v3v3 ray.origin i2⟩)
    ∧ (∀ i1 i2 : Vec3, equals_v3v3 (edgeV1 data index) (edgeV2 data index) = false →
        isect_line_line_v3 (edgeV1 data index) (edgeV2 data index) ray.origin
            (ray.origin + ray.direction) = some (i1, i2) →
        (0 ≤ dot_v3v3v3 ray.origin i2 (ray.origin + ray.direction)
          ∧ prims.len_v3v3 ray.origin i2 < hit.dist) →
        ¬ line_point_factor_v3 i1 (edgeV1 data index) (edgeV2 data index) < 0 →
        1 < line_point_factor_v3 i1 (edgeV1 data index) (edgeV2 data index) →
        ¬ len_squared_v3v3 (edgeV2 data index) i2 ≤ square_f ray.radius →
        mesh_edges_spherecast prims data index ray hit = hit)
    ∧ (∀ i1 i2 : Vec3, equals_v3v3 (edgeV1 data index) (edgeV2 data index) = false →
        isect_line_line_v3 (edgeV1 data index) (edgeV2 data index) ray.origin
            (ray.origin + ray.direction) = some (i1, i2) →
        (0 ≤ dot_v3v3v3 ray.origin i2 (ray.origin + ray.direction)
          ∧ prims.len_v3v3 ray.origin i2 < hit.dist) →
        line_point_factor_v3 i1 (edgeV1 data index) (edgeV2 data index) < 0 →
        len_squared_v3v3 (edgeV1 data index) i2 ≤ square_f ray.radius →
        mesh_edges_spherecast prims data index ray hit
          = ⟨(index : ℤ), i2, hit.no, prims.len_v3v3 ray.origin i2⟩) := by
  refine ⟨?_, ?_, ?_, ?_, ?_⟩
  · intro h1
    simp only [edgeV1, edgeV2] at h1 ⊢
    simp only [mesh_edges_spherecast, h1, if_true]
  · intro i1 i2 hne hisect hrej
    simp only [edgeV1, edgeV2] at hne hisect ⊢
    simp only [mesh_edges_spherecast, hne, Bool.false_eq_true, if_false, hisect]
    rw [if_neg hrej]
  · intro i1 i2 hne hisect hfront hnotneg h1lt hrad
    simp only [edgeV1, edgeV2] at hne hisect hnotneg h1lt hrad ⊢
    simp only [mesh_edges_spherecast, hne, Bool.false_eq_true, if_false, hisect]
    rw [if_pos hfront, if_neg hnotneg, if_pos h1lt, if_pos hrad]
  · intro i1 i2 hne hisect hfront hnotneg h1lt hrad
    simp only [edgeV1, edgeV2] at hne hisect hnotneg h1lt hrad ⊢
    simp only [mesh_edges_spherecast, hne, Bool.false_eq_true, if_false, hisect]
    rw [if_pos hfront, if_neg hnotneg, if_pos h1lt, if_neg hrad]
  · intro i1 i2 hne hisect hfront hneg hrad
    simp only [edgeV1, edgeV2] at hne hisect hneg hrad ⊢
    simp only [mesh_edges_spherecast, hne, Bool.false_eq_true, if_false, hisect]
    rw [if_pos hfront, if_pos hneg, if_pos hrad]

theorem c8_edges_spherecast_clamp_witness :
    (equals_v3v3 (edgeV1 cZeroEdgeData 0) (edgeV2 cZeroEdgeData 0) = true
      ∧ mesh_edges_spherecast testPrims cZeroEdgeData 0 cRayHitCase hit0
        = mesh_verts_spherecast_do testPrims 0 (edgeV1 cZeroEdgeData 0) cRayHitCase hit0)
    ∧ ((equals_v3v3 (edgeV1 cEdgeData 0) (edgeV2 cEdgeData 0) = false
        ∧ isect_line_line_v3 (edgeV1 cEdgeData 0) (edgeV2 cEdgeData 0) cRayHitCase.origin
            (cRayHitCase.origin + cRayHitCase.direction) = some (qv 3 0 0, qv 3 0 0)
        ∧ 1 < line_point_factor_v3 (qv 3 0 0) (edgeV1 cEdgeData 0) (edgeV2 cEdgeData 0)
        ∧ len_squared_v3v3 (edgeV2 cEdgeData 0) (qv 3 0 0) ≤ square_f cRayHitCase.radius)
      ∧ mesh_edges_spherecast testPrims cEdgeData 0 cRayHitCase hit0
        = ⟨(0 : ℤ), qv 3 0 0, hit0.no, testPrims.len_v3v3 cRayHitCase.origin (qv 3 0 0)⟩)
    ∧ ((¬ len_squared_v3v3 (edgeV2 cEdgeData 0) (qv 3 0 0) ≤ square_f cRayMissCase.radius)
      ∧ mesh_edges_spherecast testPrims cEdgeData 0 cRayMissCase hit0 = hit0) :=
  ⟨⟨by decide,
    (c8_edges_spherecast_clamp testPrims cZeroEdgeData 0 cRayHitCase hit0).1 (by decide)⟩,
   ⟨⟨by decide, by decide, by decide, by decide⟩,
    (c8_edges_spherecast_clamp testPrims cEdgeData 0 cRayHitCase hit0).2.2.1 (qv 3 0 0)
      (qv 3 0 0) (by decide) (by decide) (by decide) (by decide) (by decide) (by decide)⟩,
   ⟨by decide,
    (c8_edges_spherecast_clamp testPrims cEdgeData 0 cRayMissCase hit0).2.2.2.1 (qv 3 0 0)
      (qv 3 0 0) (by decide) (by decide) (by decide) (by decide) (by decide) (by decide)⟩⟩

theorem maskClear_count (mc : List Bool × ℤ) (h : mc.2 = (mc.1.count true : ℤ)) (i : ℕ) :
    (maskClear mc i).2 = ((maskClear mc i).1.count true : ℤ) := by
  unfold maskClear
  by_cases hb : mc.1.getD i false
  · rw [if_pos hb]
    have hcast : ((mc.1.set i false).count true : ℤ) + 1 = (mc.1.count true : ℤ) := by
      exact_mod_cast count_set_false mc.1 i hb
    show mc.2 - 1 = ((mc.1.set i false).count true : ℤ)
    omega
  · rw [if_neg hb]
    exact h

theorem looseVertsEdgePass_count (m : MeshData) (mc : List Bool × ℤ)
    (h : mc.2 = (mc.1.count true : ℤ)) (i : ℕ) :
    (looseVertsEdgePass m mc i).2 = ((looseVertsEdgePass m mc i).1.count true : ℤ) := by
  unfold looseVertsEdgePass
  by_cases he : m.hide_edge.get i
  · rw [if_pos he]
    exact h
  · rw [if_neg he]
    exact maskClear_count _ (maskClear_count mc h _) _

theorem looseVertsHiddenPass_count (m : MeshData) (mc : List Bool × ℤ)
    (h : mc.2 = (mc.1.count true : ℤ)) (vert : ℕ) :
    (looseVertsHiddenPass m mc vert).2
      = ((looseVertsHiddenPass m mc vert).1.count true : ℤ) := by
  unfold looseVertsHiddenPass
  by_cases hb : (mc.1.getD vert false && m.hide_vert.get vert) = true
  · rw [if_pos hb]
    have hset : mc.1.getD vert false = true := ((Bool.and_eq_true _ _).mp hb).1
    have hcast : ((mc.1.set vert false).count true : ℤ) + 1 = (mc.1.count true : ℤ) := by
      exact_mod_cast count_set_false mc.1 vert hset
    show mc.2 - 1 = ((mc.1.set vert false).count true : ℤ)
    omega
  · rw [if_neg hb]
    exact h

theorem maskClear_stable_false (mc : List Bool × ℤ) {v : ℕ}
    (h : mc.1.getD v false = false) (i : ℕ) : (maskClear mc i).1.getD v false = false := by
  unfold maskClear
  by_cases hb : mc.1.getD i false
  · rw [if_pos hb]
    by_cases hiv : i = v
    · subst hiv
      exact getD_set_self _ _
    · show (mc.1.set i false).getD v false = false
      rw [getD_set_ne _ hiv]
      exact h
  · rw [if_neg hb]
    exact h

theorem maskClear_clears (mc : List Bool × ℤ) (i : ℕ) :
    (maskClear mc i).1.getD i false = false := by
  unfold maskClear
  by_cases hb : mc.1.getD i false
  · rw [if_pos hb]
    exact getD_set_self _ _
  · rw [if_neg hb]
    exact Bool.eq_false_iff.mpr hb

theorem maskClear_preserve_ne (mc : List Bool × ℤ) {i v : ℕ} (h : i ≠ v) :
    (maskClear mc i).1.getD v false = mc.1.getD v false := by
  unfold maskClear
  by_cases hb : mc.1.getD i false
  · rw [if_pos hb]
    exact getD_set_ne _ h _
  · rw [if_neg hb]

theorem looseVertsEdgePass_stable_false (m : MeshData) (mc : List Bool × ℤ) {v : ℕ}
    (h : mc.1.getD v false = false) (i : ℕ) :
    (looseVertsEdgePass m mc i).1.getD v false = false := by
  unfold looseVertsEdgePass
  by_cases he : m.hide_edge.get i
  · rw [if_pos he]
    exact h
  · rw [if_neg he]
    exact maskClear_stable_false _ (maskClear_stable_false _ h _) _

theorem looseVertsHiddenPass_stable_false (m : MeshData) (mc : List Bool × ℤ) {v : ℕ}
    (h : mc.1.getD v false = false) (w : ℕ) :
    (looseVertsHiddenPass m mc w).1.getD v false = false := by
  unfold looseVertsHiddenPass
  by_cases hb : (mc.1.getD w false && m.hide_vert.get w) = true
  · rw [if_pos hb]
    by_cases hwv : w = v
    · subst hwv
      exact getD_set_self _ _
    · show (mc.1.set w false).getD v false = false
      rw [getD_set_ne _ hwv]
      exact h
  · rw [if_neg hb]
    exact h

theorem looseVertsEdgePass_preserve_true (m : MeshData) (mc : List Bool × ℤ) {v : ℕ}
    (i : ℕ)
    (hnotouch : m.hide_edge.get i = false →
      (m.edges.getD i (0, 0)).1 ≠ v ∧ (m.edges.getD i (0, 0)).2 ≠ v)
    (h : mc.1.getD v false = true) :
    (looseVertsEdgePass m mc i).1.getD v false = true := by
  unfold looseVertsEdgePass
  by_cases he : m.hide_edge.get i
  · rw [if_pos he]
    exact h
  · rw [if_neg he]
    have hne := hnotouch (Bool.eq_false_iff.mpr he)
    rw [maskClear_preserve_ne _ hne.2, maskClear_preserve_ne _ hne.1]
    exact h

theorem looseVertsHiddenPass_preserve_true (m : MeshData) (mc : List Bool × ℤ) {v : ℕ}
    (hhv : m.hide_vert.get v = false) (w : ℕ) (h : mc.1.getD v false = true) :
    (looseVertsHiddenPass m mc w).1.getD v false = true := by
  unfold looseVertsHiddenPass
  by_cases hb : (mc.1.getD w false && m.hide_vert.get w) = true
  · rw [if_pos hb]
    by_cases hwv : w = v
    · subst hwv
      rw [hhv] at hb
      simp at hb
    · show (mc.1.set w false).getD v false = true
      rw [getD_set_ne _ hwv]
      exact h
  · rw [if_neg hb]
    exact h

/-- Claim C5: the loose-vertex-excluding-hidden mask derivation returns the count
of still-active vertices together with the mask; a vertex touched by at least one
non-hidden edge is never active regardless of its own hidden flag; and a vertex
untouched by every non-hidden edge and not itself hidden is active. -/
theorem c5_loose_verts_no_hidden_mask (m : MeshData) (v : ℕ) :
    (loose_verts_no_hidden_mask_get m).2
        = ((loose_verts_no_hidden_mask_get m).1.count true : ℤ)
    ∧ (∀ i, i < m.edges.length → m.hide_edge.get i = false →
        ((m.edges.getD i (0, 0)).1 = v ∨ (m.edges.getD i (0, 0)).2 = v) →
        (loose_verts_no_hidden_mask_get m).1.getD v false = false)
    ∧ (v < m.verts_num →
        (∀ i, i < m.edges.length → m.hide_edge.get i = false →
          (m.edges.getD i (0, 0)).1 ≠ v ∧ (m.edges.getD i (0, 0)).2 ≠ v) →
        m.hide_vert.get v = false →
        (loose_verts_no_hidden_mask_get m).1.getD v false = true) := by
  refine ⟨?_, ?_, ?_⟩
  · simp only [loose_verts_no_hidden_mask_get]
    have hstart : ((m.verts_num : ℤ))
        = (((List.replicate m.verts_num true).count true : ℕ) : ℤ) := by
      rw [count_replicate_true]
    have h1 := foldl_preserve_mem
      (fun mc : List Bool × ℤ => mc.2 = (mc.1.count true : ℤ))
      (looseVertsEdgePass m) (List.range m.edges.length)
      (fun b a _ hb => looseVertsEdgePass_count m b hb a)
      (List.replicate m.verts_num true, (m.verts_num : ℤ)) hstart
    split
    · exact foldl_preserve_mem (fun mc : List Bool × ℤ => mc.2 = (mc.1.count true : ℤ))
        (looseVertsHiddenPass m) _
        (fun b a _ hb => looseVertsHiddenPass_count m b hb a) _ h1
    · exact h1
  · intro i hi hvis htouch
    simp only [loose_verts_no_hidden_mask_get]
    have hest : ∀ b : List Bool × ℤ, (looseVertsEdgePass m b i).1.getD v false = false := by
      intro b
      unfold looseVertsEdgePass
      rw [if_neg (by rw [hvis]; exact Bool.false_ne_true)]
      rcases htouch with h1 | h2
      · exact maskClear_stable_false _
          (h1 ▸ maskClear_clears b (m.edges.getD i (0, 0)).1) _
      · exact h2 ▸ maskClear_clears (maskClear b (m.edges.getD i (0, 0)).1)
          (m.edges.getD i (0, 0)).2
    have h1 := foldl_establish_mem
      (fun mc : List Bool × ℤ => mc.1.getD v false = false)
      (looseVertsEdgePass m) (List.range m.edges.length)
      (fun b a _ hb => looseVertsEdgePass_stable_false m b hb a)
      i (List.mem_range.mpr hi) hest
      (List.replicate m.verts_num true, (m.verts_num : ℤ))
    split
    · exact foldl_preserve_mem (fun mc : List Bool × ℤ => mc.1.getD v false = false)
        (looseVertsHiddenPass m) _
        (fun b a _ hb => looseVertsHiddenPass_stable_false m b hb a) _ h1
    · exact h1
  · intro hvn huntouched hhv
    simp only [loose_verts_no_hidden_mask_get]
    have h1 := foldl_preserve_mem
      (fun mc : List Bool × ℤ => mc.1.getD v false = true)
      (looseVertsEdgePass m) (List.range m.edges.length)
      (fun b a ha hb => looseVertsEdgePass_preserve_true m b a
        (fun hvis => huntouched a (List.mem_range.mp ha) hvis) hb)
      (List.replicate m.verts_num true, (m.verts_num : ℤ)) (getD_replicate_true hvn)
    split
    · exact foldl_preserve_mem (fun mc : List Bool × ℤ => mc.1.getD v false = true)
        (looseVertsHiddenPass m) _
        (fun b a _ hb => looseVertsHiddenPass_preserve_true m b hhv a hb) _ h1
    · exact h1

theorem c5_loose_verts_no_hidden_mask_witness :
    ((0 : ℕ) < cMeshLoose.edges.length ∧ cMeshLoose.hide_edge.get 0 = false
      ∧ (cMeshLoose.edges.getD 0 (0, 0)).1 = 0
      ∧ (loose_verts_no_hidden_mask_get cMeshLoose).1.getD 0 false = false)
    ∧ ((3 : ℕ) < cMeshLoose.verts_num ∧ cMeshLoose.hide_vert.get 3 = false
      ∧ (loose_verts_no_hidden_mask_get cMeshLoose).1.getD 3 false = true)
    ∧ (loose_verts_no_hidden_mask_get cMeshLoose).2
        = ((loose_verts_no_hidden_mask_get cMeshLoose).1.count true : ℤ) :=
  ⟨⟨by decide, by decide, by decide,
    (c5_loose_verts_no_hidden_mask cMeshLoose 0).2.1 0 (by decide) (by decide)
      (Or.inl (by decide))⟩,
   ⟨by decide, by decide,
    (c5_loose_verts_no_hidden_mask cMeshLoose 3).2.2 (by decide)
      (by
        intro i hi hvis
        rw [show cMeshLoose.edges.length = 1 from rfl] at hi
        have h0 : i = 0 := by omega
        subst h0
        exact ⟨by decide, by decide⟩)
      (by decide)⟩,
   (c5_loose_verts_no_hidden_mask cMeshLoose 0).1⟩

theorem foldl_insert_eq (g : ℕ → List Vec3) :
    ∀ (l : List ℕ) (t : BVHTree),
      l.foldl (fun t i => BLI_bvhtree_insert t i (g i)) t
        = ⟨t.id, t.inserts ++ l.map (fun i => ⟨i, g i⟩), t.balanced⟩ := by
  intro l
  induction l with
  | nil => intro t; simp
  | cons a tl ih =>
    intro t
    simp only [List.foldl_cons]
    rw [ih]
    simp [BLI_bvhtree_insert]

theorem foldl_insert_nested_eq (g : ℕ → List Vec3) (r : ℕ → List ℕ) :
    ∀ (l : List ℕ) (t : BVHTree),
      l.foldl (fun t fi => (r fi).foldl (fun t i => BLI_bvhtree_insert t i (g i)) t) t
        = ⟨t.id, t.inserts ++ l.flatMap (fun fi => (r fi).map (fun i => ⟨i, g i⟩)),
           t.balanced⟩ := by
  intro l
  induction l with
  | nil => intro t; simp
  | cons a tl ih =>
    intro t
    simp only [List.foldl_cons]
    rw [foldl_insert_eq g (r a) t, ih]
    simp [List.flatMap_cons, List.append_assoc]

theorem bvhtree_new_common_all (k s : ℕ) :
    bvhtree_new_common k (-1) s
      = if (k : ℤ) = 0 then some (none, (k : ℤ), s)
        else some (some (BLI_bvhtree_new s), (k : ℤ), s + 1) := by
  simp [bvhtree_new_common]

theorem foldl_add_le (f : ℕ → ℕ) :
    ∀ (l : List ℕ) (a : ℕ), a ≤ l.foldl (fun acc i => acc + f i) a := by
  intro l
  induction l with
  | nil => intro a; exact Nat.le_refl a
  | cons b tl ih =>
    intro a
    exact Nat.le_trans (Nat.le_add_right a (f b)) (ih (a + f b))

theorem foldl_add_eq_zero (f : ℕ → ℕ) :
    ∀ (l : List ℕ) (a : ℕ), l.foldl (fun acc i => acc + f i) a = 0 → ∀ x ∈ l, f x = 0 := by
  intro l
  induction l with
  | nil => intro a _ x hx; exact absurd hx (List.not_mem_nil x)
  | cons b tl ih =>
    intro a hfold x hx
    have hle : a + f b ≤ 0 := hfold ▸ foldl_add_le f tl (a + f b)
    rcases List.mem_cons.mp hx with h | h
    · subst h
      omega
    · exact ih (a + f b) hfold x h

theorem tris_init_expected_empty (m : MeshData) :
    ∀ (faces_mask : List ℕ),
      (∀ fi ∈ faces_mask, face_triangles_num (m.faceSize fi) = 0) →
      tris_init_expected_inserts m faces_mask = [] := by
  intro l
  induction l with
  | nil => intro _; rfl
  | cons a tl ih =>
    intro hall
    have hrange : face_triangles_range m a = [] := by
      unfold face_triangles_range
      rw [hall a (List.mem_cons_self a tl)]
      rfl
    simp only [tris_init_expected_inserts, List.flatMap_cons] at *
    rw [hrange, ih (fun fi hfi => hall fi (List.mem_cons_of_mem a hfi))]
    rfl

/-- Claim C9: the triangulated-face-subset operation delegates to the cached
triangulated-face tree when the subset size equals the face count; otherwise it
returns a fresh, exclusively-owned tree (identity taken from the current
allocation counter) that leaves every cache slot untouched and contains exactly
the triangles of the listed faces, each inserted under its original triangle
index. -/
theorem c9_tris_init_subset (m : MeshData) (faces_mask : List ℕ) (rt : MeshRuntime) :
    (faces_mask.length = m.faces_num →
      BKE_bvhtree_from_mesh_tris_init m faces_mask rt = Mesh.bvh_corner_tris m rt)
    ∧ (faces_mask.length ≠ m.faces_num →
      (BKE_bvhtree_from_mesh_tris_init m faces_mask rt).isSome
      ∧ slotsOf ((BKE_bvhtree_from_mesh_tris_init m faces_mask rt).getD dummyResult).2
          = slotsOf rt
      ∧ ((BKE_bvhtree_from_mesh_tris_init m faces_mask rt).getD dummyResult).1.owned_tree
          = ((BKE_bvhtree_from_mesh_tris_init m faces_mask rt).getD dummyResult).1.tree
      ∧ treeInserts
            (((BKE_bvhtree_from_mesh_tris_init m faces_mask rt).getD dummyResult).1.tree)
          = tris_init_expected_inserts m faces_mask
      ∧ (((BKE_bvhtree_from_mesh_tris_init m faces_mask rt).getD dummyResult).1.tree = none
          ∨ Option.map BVHTree.id
              (((BKE_bvhtree_from_mesh_tris_init m faces_mask rt).getD dummyResult).1.tree)
            = some rt.nextId)) := by
  constructor
  · intro h
    simp only [BKE_bvhtree_from_mesh_tris_init]
    rw [if_pos h]
  · intro h
    simp only [BKE_bvhtree_from_mesh_tris_init]
    rw [if_neg h, bvhtree_new_common_all]
    by_cases hk : faces_mask.foldl (fun acc i => acc + face_triangles_num (m.faceSize i)) 0 = 0
    · rw [if_pos (by exact_mod_cast hk)]
      refine ⟨rfl, rfl, rfl, ?_, Or.inl rfl⟩
      exact (tris_init_expected_empty m faces_mask
        (foldl_add_eq_zero _ faces_mask 0 hk)).symm
    · rw [if_neg (by rw [Int.natCast_eq_zero]; exact hk)]
      refine ⟨rfl, rfl, rfl, ?_, Or.inr ?_⟩
      · show (BLI_bvhtree_balance (faces_mask.foldl (fun t face_i =>
            (face_triangles_range m face_i).foldl (fun t tri_i =>
              BLI_bvhtree_insert t tri_i
                [m.vert_positions.getD
                   (m.corner_verts.getD (m.corner_tris.getD tri_i (0, 0, 0)).1 0) vzero,
                 m.vert_positions.getD
                   (m.corner_verts.getD (m.corner_tris.getD tri_i (0, 0, 0)).2.1 0) vzero,
                 m.vert_positions.getD
                   (m.corner_verts.getD (m.corner_tris.getD tri_i (0, 0, 0)).2.2 0) vzero]) t)
            (BLI_bvhtree_new rt.nextId))).inserts
          = tris_init_expected_inserts m faces_mask
        rw [foldl_insert_nested_eq (fun tri_i =>
            [m.vert_positions.getD
               (m.corner_verts.getD (m.corner_tris.getD tri_i (0, 0, 0)).1 0) vzero,
             m.vert_positions.getD
               (m.corner_verts.getD (m.corner_tris.getD tri_i (0, 0, 0)).2.1 0) vzero,
             m.vert_positions.getD
               (m.corner_verts.getD (m.corner_tris.getD tri_i (0, 0, 0)).2.2 0) vzero])
            (face_triangles_range m) faces_mask (BLI_bvhtree_new rt.nextId)]
        simp [tris_init_expected_inserts, BLI_bvhtree_balance, BLI_bvhtree_new]
      · show Option.map BVHTree.id (some (BLI_bvhtree_balance (faces_mask.foldl (fun t face_i =>
            (face_triangles_range m face_i).foldl (fun t tri_i =>
              BLI_bvhtree_insert t tri_i
                [m.vert_positions.getD
                   (m.corner_verts.getD (m.corner_tris.getD tri_i (0, 0, 0)).1 0) vzero,
                 m.vert_positions.getD
                   (m.corner_verts.getD (m.corner_tris.getD tri_i (0, 0, 0)).2.1 0) vzero,
                 m.vert_positions.getD
                   (m.corner_verts.getD (m.corner_tris.getD tri_i (0, 0, 0)).2.2 0) vzero]) t)
            (BLI_bvhtree_new rt.nextId))))
          = some rt.nextId
        rw [foldl_insert_nested_eq (fun tri_i =>
            [m.vert_positions.getD
               (m.corner_verts.getD (m.corner_tris.getD tri_i (0, 0, 0)).1 0) vzero,
             m.vert_positions.getD
               (m.corner_verts.getD (m.corner_tris.getD tri_i (0, 0, 0)).2.1 0) vzero,
             m.vert_positions.getD
               (m.corner_verts.getD (m.corner_tris.getD tri_i (0, 0, 0)).2.2 0) vzero])
            (face_triangles_range m) faces_mask (BLI_bvhtree_new rt.nextId)]
        rfl

theorem c9_tris_init_subset_witness :
    (([0, 1] : List ℕ).length = cMeshTwoTris.faces_num
      ∧ BKE_bvhtree_from_mesh_tris_init cMeshTwoTris [0, 1] freshRt
        = Mesh.bvh_corner_tris cMeshTwoTris freshRt)
    ∧ (([1] : List ℕ).length ≠ cMeshTwoTris.faces_num
      ∧ ((BKE_bvhtree_from_mesh_tris_init cMeshTwoTris [1] freshRt).isSome
        ∧ slotsOf ((BKE_bvhtree_from_mesh_tris_init cMeshTwoTris [1] freshRt).getD
              dummyResult).2
            = slotsOf freshRt
        ∧ ((BKE_bvhtree_from_mesh_tris_init cMeshTwoTris [1] freshRt).getD
              dummyResult).1.owned_tree
            = ((BKE_bvhtree_from_mesh_tris_init cMeshTwoTris [1] freshRt).getD
              dummyResult).1.tree
        ∧ treeInserts (((BKE_bvhtree_from_mesh_tris_init cMeshTwoTris [1] freshRt).getD
              dummyResult).1.tree)
            = tris_init_expected_inserts cMeshTwoTris [1]
        ∧ (((BKE_bvhtree_from_mesh_tris_init cMeshTwoTris [1] freshRt).getD
              dummyResult).1.tree = none
            ∨ Option.map BVHTree.id
                (((BKE_bvhtree_from_mesh_tris_init cMeshTwoTris [1] freshRt).getD
                  dummyResult).1.tree)
              = some freshRt.nextId))) :=
  ⟨⟨by decide, (c9_tris_init_subset cMeshTwoTris [0, 1] freshRt).1 (by decide)⟩,
   ⟨by decide, (c9_tris_init_subset cMeshTwoTris [1] freshRt).2 (by decide)⟩⟩
